import Mathlib

/-!
# SnapRAID: Windows portability layer and usage accounting

A shallow embedding of parts of `mingw.c` (path conversion, time conversion,
error mapping, seeking) and of the usage counters of `cmdline/state.h`,
followed by theorems about them.

Machine integers are natural numbers or integers with explicit reduction
modulo the width of the C type.  Calls into the operating system are
parameters of the definitions.
-/

namespace Snapraid

/-! ## Machine integers -/

/-- Conversion of a C integer to `uint64_t`. -/
def toU64 (x : Int) : Nat := (x % (2 ^ 64 : Int)).toNat

/-- Conversion of a C integer to `uint32_t` (a Windows `DWORD`). -/
def toU32 (x : Int) : Nat := (x % (2 ^ 32 : Int)).toNat

/-- Conversion of an unsigned value to `int64_t` (two's complement). -/
def toI64 (n : Nat) : Int :=
  if n % 2 ^ 64 < 2 ^ 63 then ((n % 2 ^ 64 : Nat) : Int) else ((n % 2 ^ 64 : Nat) : Int) - 2 ^ 64

/-- Conversion of an unsigned value to `int32_t` (two's complement). -/
def toI32 (n : Nat) : Int :=
  if n % 2 ^ 32 < 2 ^ 31 then ((n % 2 ^ 32 : Nat) : Int) else ((n % 2 ^ 32 : Nat) : Int) - 2 ^ 32

/-! ## Windows records used by the stat conversion -/

/-- Windows `FILETIME`: two `DWORD` halves of a count of 100 ns units since 1601-01-01. -/
structure FILETIME where
  dwLowDateTime : Nat
  dwHighDateTime : Nat
deriving DecidableEq, Repr

/-- Both halves of a `FILETIME` are `DWORD` values. -/
def FILETIME.valid (ft : FILETIME) : Prop :=
  ft.dwLowDateTime < 2 ^ 32 ∧ ft.dwHighDateTime < 2 ^ 32

instance (ft : FILETIME) : Decidable ft.valid := by
  unfold FILETIME.valid; infer_instance

/-- The 64 bit value `dwHighDateTime:dwLowDateTime`. -/
def FILETIME.toNat (ft : FILETIME) : Nat :=
  ft.dwHighDateTime * 2 ^ 32 + ft.dwLowDateTime

/-- The `FILETIME` holding a 64 bit value. -/
def FILETIME.ofNat (v : Nat) : FILETIME :=
  { dwLowDateTime := v % 2 ^ 32, dwHighDateTime := v / 2 ^ 32 % 2 ^ 32 }

/-- Windows `BY_HANDLE_FILE_INFORMATION` (the fields read by `windows_info2stat`). -/
structure BY_HANDLE_FILE_INFORMATION where
  dwFileAttributes : Nat
  ftLastWriteTime : FILETIME
  dwVolumeSerialNumber : Nat
  nFileSizeHigh : Nat
  nFileSizeLow : Nat
  nNumberOfLinks : Nat
  nFileIndexHigh : Nat
  nFileIndexLow : Nat
deriving DecidableEq, Repr

/-- The `FILE_ATTRIBUTE_TAG_INFO` record declared at the top of `mingw.c`. -/
structure FILE_ATTRIBUTE_TAG_INFO where
  FileAttributes : Nat
  ReparseTag : Nat
deriving DecidableEq, Repr

/-- Windows `WIN32_FIND_DATAW` (the fields read by `windows_finddata2stat` and
`windows_finddata2dirent`); `cFileName` holds the wide chars of the name before
its terminating NUL. -/
structure WIN32_FIND_DATAW where
  dwFileAttributes : Nat
  ftLastWriteTime : FILETIME
  nFileSizeHigh : Nat
  nFileSizeLow : Nat
  dwReserved0 : Nat
  cFileName : List Nat
deriving DecidableEq, Repr

/-! Attribute bits and reparse tags (Windows SDK values; the tags as defined in `mingw.c`). -/

def FILE_ATTRIBUTE_HIDDEN : Nat := 0x2
def FILE_ATTRIBUTE_SYSTEM : Nat := 0x4
def FILE_ATTRIBUTE_DIRECTORY : Nat := 0x10
def FILE_ATTRIBUTE_DEVICE : Nat := 0x40
def FILE_ATTRIBUTE_TEMPORARY : Nat := 0x100
def FILE_ATTRIBUTE_REPARSE_POINT : Nat := 0x400
def FILE_ATTRIBUTE_OFFLINE : Nat := 0x1000

def IO_REPARSE_TAG_DEDUP : Nat := 0x80000013
def IO_REPARSE_TAG_NFS : Nat := 0x80000014
def IO_REPARSE_TAG_MOUNT_POINT : Nat := 0xA0000003
def IO_REPARSE_TAG_SYMLINK : Nat := 0xA000000C

/-- The file kinds stored in `st_mode` (`S_IFLNKDIR` is the extra kind of the
portability layer for a symbolic link to a directory). -/
inductive Mode where
  | S_IFBLK
  | S_IFCHR
  | S_IFDIR
  | S_IFREG
  | S_IFLNK
  | S_IFLNKDIR
deriving DecidableEq, Repr

/-- Modelled from the spec: the field types of `struct windows_stat`, which is
declared in a header that is not among the sources.  The content index stores
the modification time as a signed 64 bit count of seconds and a 32 bit count
of nanoseconds, the size as a signed 64 bit value, the inode as an unsigned
64 bit value; link count and device are 32 bit values. -/
structure windows_stat where
  st_ino : Nat
  st_size : Int
  st_mtime : Int
  st_mtimensec : Int
  st_mode : Mode
  st_nlink : Nat
  st_dev : Nat
  st_hidden : Bool
  st_desc : String
deriving DecidableEq, Repr

/-- Modelled from the spec: `struct windows_timespec`, declared in a header that
is not among the sources: signed seconds and nanoseconds, as in the stat record. -/
structure windows_timespec where
  tv_sec : Int
  tv_nsec : Int
deriving DecidableEq, Repr

/-! ## `windows_info2stat` and `windows_finddata2stat` -/

/-- Source `windows_info2stat`: converts Windows info to the Unix stat format. -/
def windows_info2stat (info : BY_HANDLE_FILE_INFORMATION) (tag : FILE_ATTRIBUTE_TAG_INFO) :
    windows_stat :=
  let md : Mode × String :=
    if info.dwFileAttributes &&& FILE_ATTRIBUTE_DEVICE ≠ 0 then
      (Mode.S_IFBLK, "device")
    else if info.dwFileAttributes &&& FILE_ATTRIBUTE_OFFLINE ≠ 0 then
      (Mode.S_IFCHR, "offline")
    else if info.dwFileAttributes &&& FILE_ATTRIBUTE_TEMPORARY ≠ 0 then
      (Mode.S_IFCHR, "temporary")
    else if info.dwFileAttributes &&& FILE_ATTRIBUTE_REPARSE_POINT ≠ 0 then
      if tag.ReparseTag = IO_REPARSE_TAG_DEDUP then
        if info.dwFileAttributes &&& FILE_ATTRIBUTE_DIRECTORY ≠ 0 then
          (Mode.S_IFDIR, "directory-dedup")
        else
          (Mode.S_IFREG, "regular-dedup")
      else if tag.ReparseTag = IO_REPARSE_TAG_SYMLINK then
        if info.dwFileAttributes &&& FILE_ATTRIBUTE_DIRECTORY ≠ 0 then
          (Mode.S_IFLNKDIR, "reparse-point-symlink-dir")
        else
          (Mode.S_IFLNK, "reparse-point-symlink-file")
      else if tag.ReparseTag = IO_REPARSE_TAG_MOUNT_POINT then
        (Mode.S_IFCHR, "reparse-point-mount")
      else if tag.ReparseTag = IO_REPARSE_TAG_NFS then
        (Mode.S_IFCHR, "reparse-point-nfs")
      else
        (Mode.S_IFCHR, "reparse-point")
    else if info.dwFileAttributes &&& FILE_ATTRIBUTE_SYSTEM ≠ 0 then
      if info.dwFileAttributes &&& FILE_ATTRIBUTE_DIRECTORY ≠ 0 then
        (Mode.S_IFCHR, "system-directory")
      else
        (Mode.S_IFREG, "system-file")
    else
      if info.dwFileAttributes &&& FILE_ATTRIBUTE_DIRECTORY ≠ 0 then
        (Mode.S_IFDIR, "directory")
      else
        (Mode.S_IFREG, "regular")
  /- st_size = nFileSizeHigh; st_size <<= 32; st_size |= nFileSizeLow -/
  let size : Nat := ((info.nFileSizeHigh <<< 32) % 2 ^ 64) ||| info.nFileSizeLow
  /- mtime = dwHighDateTime; mtime <<= 32; mtime |= dwLowDateTime -/
  let mtime : Nat := ((info.ftLastWriteTime.dwHighDateTime <<< 32) % 2 ^ 64)
    ||| info.ftLastWriteTime.dwLowDateTime
  /- mtime -= 116444736000000000LL, in uint64_t -/
  let mtime : Nat := (mtime + (2 ^ 64 - 116444736000000000)) % 2 ^ 64
  /- st_ino = nFileIndexHigh; st_ino <<= 32; st_ino |= nFileIndexLow -/
  let ino : Nat := ((info.nFileIndexHigh <<< 32) % 2 ^ 64) ||| info.nFileIndexLow
  { st_mode := md.1
    st_desc := md.2
    st_hidden := decide (info.dwFileAttributes &&& FILE_ATTRIBUTE_HIDDEN ≠ 0)
    st_size := toI64 size
    st_mtime := toI64 (mtime / 10000000)
    st_mtimensec := toI32 ((mtime % 10000000) * 100 % 2 ^ 64)
    st_ino := ino
    st_nlink := info.nNumberOfLinks
    st_dev := info.dwVolumeSerialNumber }

/-- Source `windows_finddata2stat`: converts Windows findfirst info to the Unix stat format. -/
def windows_finddata2stat (info : WIN32_FIND_DATAW) : windows_stat :=
  let md : Mode × String :=
    if info.dwFileAttributes &&& FILE_ATTRIBUTE_DEVICE ≠ 0 then
      (Mode.S_IFBLK, "device")
    else if info.dwFileAttributes &&& FILE_ATTRIBUTE_OFFLINE ≠ 0 then
      (Mode.S_IFCHR, "offline")
    else if info.dwFileAttributes &&& FILE_ATTRIBUTE_TEMPORARY ≠ 0 then
      (Mode.S_IFCHR, "temporary")
    else if info.dwFileAttributes &&& FILE_ATTRIBUTE_REPARSE_POINT ≠ 0 then
      if info.dwReserved0 = IO_REPARSE_TAG_DEDUP then
        if info.dwFileAttributes &&& FILE_ATTRIBUTE_DIRECTORY ≠ 0 then
          (Mode.S_IFDIR, "directory-dedup")
        else
          (Mode.S_IFREG, "regular-dedup")
      else if info.dwReserved0 = IO_REPARSE_TAG_SYMLINK then
        if info.dwFileAttributes &&& FILE_ATTRIBUTE_DIRECTORY ≠ 0 then
          (Mode.S_IFLNKDIR, "reparse-point-symlink-dir")
        else
          (Mode.S_IFLNK, "reparse-point-symlink-file")
      else if info.dwReserved0 = IO_REPARSE_TAG_MOUNT_POINT then
        (Mode.S_IFCHR, "reparse-point-mount")
      else if info.dwReserved0 = IO_REPARSE_TAG_NFS then
        (Mode.S_IFCHR, "reparse-point-nfs")
      else
        (Mode.S_IFCHR, "reparse-point")
    else if info.dwFileAttributes &&& FILE_ATTRIBUTE_SYSTEM ≠ 0 then
      if info.dwFileAttributes &&& FILE_ATTRIBUTE_DIRECTORY ≠ 0 then
        (Mode.S_IFCHR, "system-directory")
      else
        (Mode.S_IFREG, "system-file")
    else
      if info.dwFileAttributes &&& FILE_ATTRIBUTE_DIRECTORY ≠ 0 then
        (Mode.S_IFDIR, "directory")
      else
        (Mode.S_IFREG, "regular")
  let size : Nat := ((info.nFileSizeHigh <<< 32) % 2 ^ 64) ||| info.nFileSizeLow
  let mtime : Nat := ((info.ftLastWriteTime.dwHighDateTime <<< 32) % 2 ^ 64)
    ||| info.ftLastWriteTime.dwLowDateTime
  let mtime : Nat := (mtime + (2 ^ 64 - 116444736000000000)) % 2 ^ 64
  { st_mode := md.1
    st_desc := md.2
    st_hidden := decide (info.dwFileAttributes &&& FILE_ATTRIBUTE_HIDDEN ≠ 0)
    st_size := toI64 size
    st_mtime := toI64 (mtime / 10000000)
    st_mtimensec := toI32 ((mtime % 10000000) * 100 % 2 ^ 64)
    st_ino := 0
    st_nlink := 0
    st_dev := 0 }

/-! ## `windows_futimens` -/

/-- The conversion block of source `windows_futimens`: the `FILETIME` built from
`tv[0]` and handed to `SetFileTime`. -/
def futimens_filetime (tv0 : windows_timespec) : FILETIME :=
  /- mtime = tv[0].tv_sec -/
  let mtime : Nat := toU64 tv0.tv_sec
  /- mtime *= 10000000 -/
  let mtime : Nat := (mtime * 10000000) % 2 ^ 64
  /- mtime += tv[0].tv_nsec / 100 (signed division, then conversion to uint64_t) -/
  let mtime : Nat := (mtime + toU64 (Int.tdiv tv0.tv_nsec 100)) % 2 ^ 64
  /- mtime += 116444736000000000 -/
  let mtime : Nat := (mtime + 116444736000000000) % 2 ^ 64
  { dwHighDateTime := (mtime >>> 32) % 2 ^ 32
    dwLowDateTime := mtime % 2 ^ 32 }

/-- The unsigned 64 bit value of `mtime` after the epoch subtraction, for a `FILETIME`. -/
def unixTicks (ft : FILETIME) : Nat :=
  (ft.toNat + (2 ^ 64 - 116444736000000000)) % 2 ^ 64

/-! ## Path conversion: `convert_arg` -/

/-- Number of conversion buffers. -/
def CONV_ROLL : Nat := 4

/-- Source `is_slash`: the char is a forward slash (47) or a back slash (92). -/
def is_slash (c : Nat) : Bool := c == 47 || c == 92

/-- The char `src[i]` of a C string given by its chars before the terminating
NUL: the terminator is read at the end of the string. -/
def cstr_at (src : List Nat) (i : Nat) : Nat := src.getD i 0

/-- Windows `MultiByteToWideChar(CP_UTF8, 0, src, -1, dst, cch)`.  The parameter
`decode` is the transcoding of the chars of a string from UTF-8 to UTF-16.
The call stores the converted string and its terminating NUL, and fails
(returning 0) when `cch` wide chars cannot hold them.  (A call with
`cch = 0`, which only asks for the size, is not made by `convert_arg` when
`PATH_MAX` is larger than the eight chars of the longest prefix.) -/
def MultiByteToWideChar (decode : List Nat → List Nat) (src : List Nat) (cch : Nat) :
    Option (List Nat) :=
  if (decode src).length + 1 ≤ cch then some (decode src ++ [0]) else none

/-- The last loop of source `convert_arg`, run over the wide chars from `dst`:
`while (*dst) { if (*dst == L'/') *dst = L'\\'; ++dst; }`. -/
def convert_slashes : List Nat → List Nat
  | [] => []
  | c :: rest =>
    if c = 0 then c :: rest
    else (if c = 47 then 92 else c) :: convert_slashes rest

/-- The wide string stored in a buffer: the wide chars before the first NUL. -/
def wcs (buf : List Nat) : List Nat := buf.takeWhile (fun c => c != 0)

/-- Source `convert_arg`: converts a path to the Windows format.

`PATH_MAX`, the number of wide chars of one conversion buffer, is defined in a
header that is not among the sources and is a parameter.  The result is the
wide string left in the returned buffer (which of the `CONV_ROLL` buffers is
used does not change it), or `none` when the conversion fails and the process
exits.  The prefixes are the wide chars of `\\?\UNC\` and `\\?\`. -/
def convert_arg (PATH_MAX : Nat) (decode : List Nat → List Nat) (src : List Nat)
    (only_if_required : Int) : Option (List Nat) :=
  let ps : List Nat × List Nat :=
    if only_if_required ≠ 0 ∧ src.length < 260 - 12 then
      /- it's a short path: do nothing -/
      ([], src)
    else if is_slash (cstr_at src 0) && is_slash (cstr_at src 1) && cstr_at src 2 == 63
        && is_slash (cstr_at src 3) then
      /- already a '\\?\' path: do nothing -/
      ([], src)
    else if is_slash (cstr_at src 0) && is_slash (cstr_at src 1) then
      /- UNC path: prefix with '\\?\UNC\' and skip the initial '\\' -/
      ([92, 92, 63, 92, 85, 78, 67, 92], src.drop 2)
    else if cstr_at src 0 != 0 && cstr_at src 1 == 58 && is_slash (cstr_at src 2) then
      /- disk designator path: prefix with '\\?\' -/
      ([92, 92, 63, 92], src)
    else
      ([], src)
  /- chars already used -/
  let count : Nat := ps.1.length
  match MultiByteToWideChar decode ps.2 (PATH_MAX - count) with
  | none => none
  | some out => some (wcs (ps.1 ++ convert_slashes out))

/-- Replacement of one forward slash by a back slash. -/
def to_backslash (c : Nat) : Nat := if c = 47 then 92 else c

/-- The wide chars of `\\?\`. -/
def lead_ext : List Nat := [92, 92, 63, 92]

/-- The wide chars of `\\?\UNC\`. -/
def lead_unc : List Nat := [92, 92, 63, 92, 85, 78, 67, 92]

/-- The path is a `\\?\` path: slash, slash, `?`, slash. -/
def is_ext_path (src : List Nat) : Bool :=
  is_slash (cstr_at src 0) && is_slash (cstr_at src 1) && cstr_at src 2 == 63
    && is_slash (cstr_at src 3)

/-- The path is a UNC path: it starts with two slashes. -/
def is_unc_path (src : List Nat) : Bool :=
  is_slash (cstr_at src 0) && is_slash (cstr_at src 1)

/-- The path is a disk designator path, like `D:\` or `D:/`. -/
def is_disk_path (src : List Nat) : Bool :=
  cstr_at src 0 != 0 && cstr_at src 1 == 58 && is_slash (cstr_at src 2)

/-- A transcoding never produces a NUL from a string without NUL. -/
def NulFree (decode : List Nat → List Nat) : Prop :=
  ∀ s : List Nat, 0 ∉ s → 0 ∉ decode s

/-! ## Error mapping: `windows_errno` -/

/-! Windows error codes (Windows SDK values). -/

def ERROR_FILE_NOT_FOUND : Nat := 2
def ERROR_PATH_NOT_FOUND : Nat := 3
def ERROR_ACCESS_DENIED : Nat := 5
def ERROR_INVALID_HANDLE : Nat := 6
def ERROR_NOT_ENOUGH_MEMORY : Nat := 8
def ERROR_CURRENT_DIRECTORY : Nat := 16
def ERROR_SHARING_VIOLATION : Nat := 32
def ERROR_NOT_SUPPORTED : Nat := 50
def ERROR_BUFFER_OVERFLOW : Nat := 111
def ERROR_DISK_FULL : Nat := 112
def ERROR_ALREADY_EXISTS : Nat := 183
def ERROR_PRIVILEGE_NOT_HELD : Nat := 1314

/-! Values of `errno` (C runtime values). -/

def EPERM : Int := 1
def ENOENT : Int := 2
def EIO : Int := 5
def EBADF : Int := 9
def ENOMEM : Int := 12
def EACCES : Int := 13
def EEXIST : Int := 17
def EINVAL : Int := 22
def ENOSPC : Int := 28
def ENAMETOOLONG : Int := 38
def ENOSYS : Int := 40

/-- The part of the process state written by the portability layer: `errno`
and the text sent to `stderr`. -/
structure Proc where
  errno : Int
  stderr : List String
deriving DecidableEq, Repr

/-- Source `windows_errno`: converts a Windows error to `errno`. -/
def windows_errno (error : Nat) (p : Proc) : Proc :=
  if error = ERROR_INVALID_HANDLE then
    { p with errno := EBADF }
  else if error = ERROR_FILE_NOT_FOUND ∨ error = ERROR_PATH_NOT_FOUND then
    { p with errno := ENOENT }
  else if error = ERROR_ACCESS_DENIED ∨ error = ERROR_CURRENT_DIRECTORY
      ∨ error = ERROR_SHARING_VIOLATION then
    { p with errno := EACCES }
  else if error = ERROR_ALREADY_EXISTS then
    { p with errno := EEXIST }
  else if error = ERROR_DISK_FULL then
    { p with errno := ENOSPC }
  else if error = ERROR_BUFFER_OVERFLOW then
    { p with errno := ENAMETOOLONG }
  else if error = ERROR_NOT_ENOUGH_MEMORY then
    { p with errno := ENOMEM }
  else if error = ERROR_NOT_SUPPORTED then
    { p with errno := ENOSYS }
  else if error = ERROR_PRIVILEGE_NOT_HELD then
    { p with errno := EPERM }
  else
    { errno := EIO
      stderr := p.stderr ++ ["Unexpected Windows error " ++ toString (toI32 error) ++ ".\n"] }

/-! ## Calls on file descriptors: `windows_futimens`, `windows_lseek` -/

def SEEK_SET : Int := 0

def FILE_BEGIN : Nat := 0

/-- The operating system calls made by the functions on file descriptors, over
a type `σ` of states of the operating system.  A handle is a number;
`get_osfhandle` gives `none` for `INVALID_HANDLE_VALUE`; a failing call gives
the code that `GetLastError` then returns.  `ReadFile` and `WriteFile` give the
count of bytes moved, `FindFirstFileW` the search handle and the first entry. -/
structure Win32 (σ : Type) where
  get_osfhandle : σ → Int → Option Nat
  SetFilePointerEx : σ → Nat → Int → Nat → σ × Except Nat Int
  SetFileTime : σ → Nat → FILETIME → σ × Except Nat Unit
  ReadFile : σ → Nat → Nat → σ × Except Nat Nat
  WriteFile : σ → Nat → List Nat → Nat → σ × Except Nat Nat
  Sleep : σ → Nat → σ
  FindFirstFileW : σ → List Nat → σ × Except Nat (Nat × WIN32_FIND_DATAW)
  FindNextFileW : σ → Option Nat → σ × Except Nat WIN32_FIND_DATAW
  FindClose : σ → Nat → σ × Except Nat Unit

/-- Source `windows_futimens`: the returned value, the state of the operating
system and the process state after the call. -/
def windows_futimens {σ : Type} (os : Win32 σ) (k : σ) (p : Proc) (fd : Int)
    (tv0 : windows_timespec) : Int × σ × Proc :=
  if fd = -1 then
    (-1, k, { p with errno := EBADF })
  else
    match os.get_osfhandle k fd with
    | none => (-1, k, { p with errno := EBADF })
    | some h =>
      match os.SetFileTime k h (futimens_filetime tv0) with
      | (k1, Except.error e) => (-1, k1, windows_errno e p)
      | (k1, Except.ok _) => (0, k1, p)

/-- Source `windows_lseek`: the returned value, the state of the operating
system and the process state after the call. -/
def windows_lseek {σ : Type} (os : Win32 σ) (k : σ) (p : Proc) (fd : Int)
    (offset : Int) (whence : Int) : Int × σ × Proc :=
  if fd = -1 then
    (-1, k, { p with errno := EBADF })
  else if whence ≠ SEEK_SET then
    /- we support only SEEK_SET -/
    (-1, k, { p with errno := EINVAL })
  else
    match os.get_osfhandle k fd with
    | none => (-1, k, { p with errno := EBADF })
    | some h =>
      match os.SetFilePointerEx k h offset FILE_BEGIN with
      | (k1, Except.error e) => (-1, k1, windows_errno e p)
      | (k1, Except.ok ret) => (ret, k1, p)

/-! ## Positioned reads and writes: `windows_pread`, `windows_pwrite` -/

def ERROR_NO_MORE_FILES : Nat := 18

def ERROR_NO_SYSTEM_RESOURCES : Nat := 1450

/-- The text that `windows_pread` sends to `stderr` before a new attempt. -/
def pread_retrying : String :=
  "Unexpected Windows ERROR_NO_SYSTEM_RESOURCES in pread(), retrying...\n"

/-- The text that `windows_pwrite` sends to `stderr` before a new attempt. -/
def pwrite_retrying : String :=
  "Unexpected Windows ERROR_NO_SYSTEM_RESOURCES in pwrite(), retrying...\n"

/-- Source `windows_pread` from the label `retry`.  The loop has no bound in
the source; here `fuel` bounds the number of attempts, and there is no result
when the bound is reached.  `ReadFile` gets the size as a `DWORD`, and the
count it gives is the returned value (`ssize_t` being wide enough for it). -/
def windows_pread_retry {σ : Type} (os : Win32 σ) (h : Nat) (size : Nat) (offset : Int) :
    Nat → σ → Proc → Option (Int × σ × Proc)
  | 0, _, _ => none
  | fuel + 1, k, p =>
    match os.SetFilePointerEx k h offset FILE_BEGIN with
    | (k1, Except.error e) => some (-1, k1, windows_errno e p)
    | (k1, Except.ok _) =>
      match os.ReadFile k1 h (size % 2 ^ 32) with
      | (k2, Except.error err) =>
        if err = ERROR_NO_SYSTEM_RESOURCES then
          windows_pread_retry os h size offset fuel (os.Sleep k2 50)
            { p with stderr := p.stderr ++ [pread_retrying] }
        else
          some (-1, k2, windows_errno err p)
      | (k2, Except.ok count) => some ((count : Int), k2, p)

/-- Source `windows_pread`: the returned value, the state of the operating
system and the process state after the call. -/
def windows_pread {σ : Type} (os : Win32 σ) (fuel : Nat) (k : σ) (p : Proc) (fd : Int)
    (size : Nat) (offset : Int) : Option (Int × σ × Proc) :=
  if fd = -1 then
    some (-1, k, { p with errno := EBADF })
  else
    match os.get_osfhandle k fd with
    | none => some (-1, k, { p with errno := EBADF })
    | some h => windows_pread_retry os h size offset fuel k p

/-- Source `windows_pwrite` from the label `retry`, with `fuel` as in
`windows_pread_retry`. -/
def windows_pwrite_retry {σ : Type} (os : Win32 σ) (h : Nat) (buffer : List Nat) (size : Nat)
    (offset : Int) : Nat → σ → Proc → Option (Int × σ × Proc)
  | 0, _, _ => none
  | fuel + 1, k, p =>
    match os.SetFilePointerEx k h offset FILE_BEGIN with
    | (k1, Except.error e) => some (-1, k1, windows_errno e p)
    | (k1, Except.ok _) =>
      match os.WriteFile k1 h buffer (size % 2 ^ 32) with
      | (k2, Except.error err) =>
        if err = ERROR_NO_SYSTEM_RESOURCES then
          windows_pwrite_retry os h buffer size offset fuel (os.Sleep k2 50)
            { p with stderr := p.stderr ++ [pwrite_retrying] }
        else
          some (-1, k2, windows_errno err p)
      | (k2, Except.ok count) => some ((count : Int), k2, p)

/-- Source `windows_pwrite`: the returned value, the state of the operating
system and the process state after the call. -/
def windows_pwrite {σ : Type} (os : Win32 σ) (fuel : Nat) (k : σ) (p : Proc) (fd : Int)
    (buffer : List Nat) (size : Nat) (offset : Int) : Option (Int × σ × Proc) :=
  if fd = -1 then
    some (-1, k, { p with errno := EBADF })
  else
    match os.get_osfhandle k fd with
    | none => some (-1, k, { p with errno := EBADF })
    | some h => windows_pwrite_retry os h buffer size offset fuel k p

/-- The operating system answers a run of attempts with the outcomes `rs`: from
the state `k`, each attempt sets the file pointer of the handle to `offset`
(with success) and then makes the transfer `xfer`, which gives the next
outcome; after an outcome `ERROR_NO_SYSTEM_RESOURCES` comes a `Sleep(50)` and
the next attempt; the last outcome is another one and leaves the state `kf`. -/
def Attempts {σ : Type} (os : Win32 σ) (h : Nat) (offset : Int)
    (xfer : σ → σ × Except Nat Nat) : σ → List (Except Nat Nat) → σ → Prop
  | _, [], _ => False
  | k, [r], kf =>
    r ≠ Except.error ERROR_NO_SYSTEM_RESOURCES
    ∧ ∃ k1 pos, os.SetFilePointerEx k h offset FILE_BEGIN = (k1, Except.ok pos)
        ∧ xfer k1 = (kf, r)
  | k, r :: r2 :: rs, kf =>
    r = Except.error ERROR_NO_SYSTEM_RESOURCES
    ∧ ∃ k1 pos k2, os.SetFilePointerEx k h offset FILE_BEGIN = (k1, Except.ok pos)
        ∧ xfer k1 = (k2, r)
        ∧ Attempts os h offset xfer (os.Sleep k2 50) (r2 :: rs) kf

/-- What the caller gets from the outcome of a transfer: the byte count, or -1
with the errno mapped from the error. -/
def transfer_result (r : Except Nat Nat) (p : Proc) : Int × Proc :=
  match r with
  | Except.ok count => ((count : Int), p)
  | Except.error err => (-1, windows_errno err p)

/-! ## Directory streams: `windows_opendir`, `windows_readdir`, `windows_closedir` -/

/-- The fields of `struct windows_dirent` that `mingw.c` uses (the declaration
is in a header that is not among the sources): the name as a C string, the
hidden flag and the find data of the entry. -/
structure windows_dirent where
  d_name : List Nat
  d_hidden : Bool
  d_data : WIN32_FIND_DATAW
deriving DecidableEq, Repr

/-- The fields of the directory stream `windows_dir` that `mingw.c` uses (the
declaration is in a header that is not among the sources): the search handle
(`none` for `INVALID_HANDLE_VALUE`), the entry buffer and the flags (-1 for an
empty directory, 1 when the buffer holds the first entry not yet returned,
0 otherwise). -/
structure windows_dir where
  h : Option Nat
  buffer : windows_dirent
  flags : Int
deriving DecidableEq, Repr

/-- Windows `WideCharToMultiByte(CP_UTF8, 0, src, -1, dst, cb, 0, 0)`.  The
parameter `encode` is the transcoding of the wide chars of a string from UTF-16
to UTF-8.  The call stores the converted string and its terminating NUL, and
fails (returning 0) when `cb` chars cannot hold them. -/
def WideCharToMultiByte (encode : List Nat → List Nat) (src : List Nat) (cb : Nat) :
    Option (List Nat) :=
  if (encode src).length + 1 ≤ cb then some (encode src ++ [0]) else none

/-- Source `u16tou8`: converts a string from UTF-16 to UTF-8, in a conversion
buffer of `PATH_MAX` chars; `none` when the conversion fails and the process
exits.  The result is the C string left in the buffer. -/
def u16tou8 (PATH_MAX : Nat) (encode : List Nat → List Nat) (src : List Nat) :
    Option (List Nat) :=
  match WideCharToMultiByte encode src PATH_MAX with
  | none => none
  | some out => some (out.takeWhile (fun c => c != 0))

/-- Source `windows_finddata2dirent`: fills the name and the hidden flag of the
entry from the find data; `none` when the process exits (failed conversion, or
`Name too long`).  `D_NAME_SIZE` is `sizeof(dirent->d_name)`, from a header
that is not among the sources. -/
def windows_finddata2dirent (PATH_MAX D_NAME_SIZE : Nat) (encode : List Nat → List Nat)
    (info : WIN32_FIND_DATAW) (dirent : windows_dirent) : Option windows_dirent :=
  match u16tou8 PATH_MAX encode info.cFileName with
  | none => none
  | some name =>
    let len : Nat := name.length
    if len + 1 ≥ D_NAME_SIZE then
      none
    else
      some { dirent with
        d_name := name
        d_hidden := decide (info.dwFileAttributes &&& FILE_ATTRIBUTE_HIDDEN ≠ 0) }

/-- The search pattern of source `windows_opendir`: the converted directory
with a final `\` (when it is not empty and has none) and a `*`. -/
def opendir_pattern (wdir : List Nat) : List Nat :=
  let len : Nat := wdir.length
  let wdir1 : List Nat := if len ≠ 0 ∧ wdir.getD (len - 1) 0 ≠ 92 then wdir ++ [92] else wdir
  wdir1 ++ [42]

/-- Source `windows_opendir`.  `mem` is the block that `malloc` gives for the
stream, with the entry buffer as it is found there, or `none` when there is no
memory.  The result is `none` when the process exits; otherwise it is the
stream returned (`none` for a null pointer), the state of the operating system
and the process state.  The pattern is built in the conversion buffer of
`PATH_MAX` wide chars: there is no result when it does not fit with its
terminating NUL, the source then writing past the buffer. -/
def windows_opendir {σ : Type} (PATH_MAX D_NAME_SIZE : Nat) (decode encode : List Nat → List Nat)
    (os : Win32 σ) (k : σ) (p : Proc) (mem : Option windows_dirent) (dir : List Nat) :
    Option (Option windows_dir × σ × Proc) :=
  match mem with
  | none => none
  | some buffer =>
    match convert_arg PATH_MAX decode dir 0 with
    | none => none
    | some wdir =>
      if (opendir_pattern wdir).length + 1 > PATH_MAX then
        none
      else
        match os.FindFirstFileW k (opendir_pattern wdir) with
        | (k1, Except.error error) =>
          if error = ERROR_FILE_NOT_FOUND then
            /- empty dir -/
            some (some { h := none, buffer := buffer, flags := -1 }, k1, p)
          else
            some (none, k1, windows_errno error p)
        | (k1, Except.ok (h, data)) =>
          match windows_finddata2dirent PATH_MAX D_NAME_SIZE encode data
              { buffer with d_data := data } with
          | none => none
          | some b => some (some { h := some h, buffer := b, flags := 1 }, k1, p)

/-- Source `windows_readdir`.  The result is `none` when the process exits;
otherwise it is the entry returned (`none` for a null pointer), the stream,
the state of the operating system and the process state after the call. -/
def windows_readdir {σ : Type} (PATH_MAX D_NAME_SIZE : Nat) (encode : List Nat → List Nat)
    (os : Win32 σ) (k : σ) (p : Proc) (dirstream : windows_dir) :
    Option (Option windows_dirent × windows_dir × σ × Proc) :=
  if dirstream.flags = -1 then
    /- end of stream -/
    some (none, dirstream, k, { p with errno := 0 })
  else if dirstream.flags = 1 then
    some (some dirstream.buffer, { dirstream with flags := 0 }, k, p)
  else
    match os.FindNextFileW k dirstream.h with
    | (k1, Except.error error) =>
      if error = ERROR_NO_MORE_FILES then
        /- end of stream -/
        some (none, dirstream, k1, { p with errno := 0 })
      else
        some (none, dirstream, k1, windows_errno error p)
    | (k1, Except.ok data) =>
      match windows_finddata2dirent PATH_MAX D_NAME_SIZE encode data
          { dirstream.buffer with d_data := data } with
      | none => none
      | some b => some (some b, { dirstream with buffer := b }, k1, p)

/-- Source `windows_closedir`: the returned value, the state of the operating
system and the process state after the call. -/
def windows_closedir {σ : Type} (os : Win32 σ) (k : σ) (p : Proc) (dirstream : windows_dir) :
    Int × σ × Proc :=
  match dirstream.h with
  | some h =>
    match os.FindClose k h with
    | (k1, Except.error error) => (-1, k1, windows_errno error p)
    | (k1, Except.ok _) => (0, k1, p)
  | none => (0, k, p)

/-- A number of successive calls of `windows_readdir` on a stream: the entries
returned, in the order of the calls, and the stream and states after the last
call; `none` when the process exits on the way. -/
def readdir_calls {σ : Type} (PATH_MAX D_NAME_SIZE : Nat) (encode : List Nat → List Nat)
    (os : Win32 σ) : Nat → σ → Proc → windows_dir →
    Option (List (Option windows_dirent) × windows_dir × σ × Proc)
  | 0, k, p, dirstream => some ([], dirstream, k, p)
  | n + 1, k, p, dirstream =>
    match windows_readdir PATH_MAX D_NAME_SIZE encode os k p dirstream with
    | none => none
    | some (r, dirstream1, k1, p1) =>
      match readdir_calls PATH_MAX D_NAME_SIZE encode os n k1 p1 dirstream1 with
      | none => none
      | some (rs, dirstream2, k2, p2) => some (r :: rs, dirstream2, k2, p2)

/-- The operating system enumerates the entries `es` after the first one: from
the state `k`, the calls of `FindNextFileW` on the search handle give the
entries of `es` in turn, and then fail with `ERROR_NO_MORE_FILES`, leaving the
state `kf`. -/
def Enumerates {σ : Type} (os : Win32 σ) (h : Nat) : σ → List WIN32_FIND_DATAW → σ → Prop
  | k, [], kf => os.FindNextFileW k (some h) = (kf, Except.error ERROR_NO_MORE_FILES)
  | k, e :: es, kf =>
    ∃ k1, os.FindNextFileW k (some h) = (k1, Except.ok e) ∧ Enumerates os h k1 es kf

/-- The directory entry that stands for an entry of the operating system: its
name converted to UTF-8, its hidden flag and its find data. -/
def dirent_of (encode : List Nat → List Nat) (e : WIN32_FIND_DATAW) : windows_dirent :=
  { d_name := (encode e.cFileName ++ [0]).takeWhile (fun c => c != 0)
    d_hidden := decide (e.dwFileAttributes &&& FILE_ATTRIBUTE_HIDDEN ≠ 0)
    d_data := e }

/-! ## Disk uuid: `devuuid` -/

/-- The printf conversion `%x`: the hexadecimal digits of the value, lower-case,
most significant first, without leading zero (one digit for zero). -/
def fmt_x (v : Nat) : List Char :=
  if _h : v < 16 then [Nat.digitChar v] else fmt_x (v / 16) ++ [Nat.digitChar (v % 16)]
decreasing_by omega

/-- The printf conversion `%08x`: the conversion `%x` padded on the left with
zeros to a width of at least 8 chars. -/
def fmt_08x (v : Nat) : List Char :=
  List.replicate (8 - (fmt_x v).length) '0' ++ fmt_x v

/-- C library `snprintf(buf, size, "%08x", v)`: the string stored in `buf`, at
most `size - 1` chars of the output (followed by the terminating NUL). -/
def snprintf_08x (size : Nat) (v : Nat) : List Char :=
  (fmt_08x v).take (size - 1)

/-- Source `devuuid`: the returned value and the string stored in `uuid`.  The
cast `(unsigned)device` keeps the low 32 bits of the `uint64_t` device. -/
def devuuid (device : Nat) (uuid_size : Nat) : Int × List Char :=
  (0, snprintf_08x uuid_size (device % 2 ^ 64 % 2 ^ 32))

/-- The char is a lower-case hexadecimal digit: `0` to `9` or `a` to `f`. -/
def is_lower_hex (c : Char) : Bool :=
  (48 ≤ c.toNat && c.toNat ≤ 57) || (97 ≤ c.toNat && c.toNat ≤ 102)

/-- The value of a hexadecimal digit char. -/
def hex_val (c : Char) : Nat :=
  if c.toNat < 58 then c.toNat - 48 else c.toNat - 87

/-! ## Usage accounting (`cmdline/state.h`) -/

/-- Max level of parity supported. -/
def LEV_MAX : Nat := 6

/-- The usage counters of source `struct snapraid_state`: `tick` is the array
`tick[LEV_MAX]`; `other` stands for all the other fields of the state. -/
structure snapraid_state (α : Type) where
  tick : List Nat
  tick_cpu : Nat
  tick_last : Nat
  other : α

/-- Modelled from the spec: `struct snapraid_disk`, declared in a header that is
not among the sources, with its accumulated time counter `tick`; `other`
stands for all its other fields. -/
structure snapraid_disk (δ : Type) where
  tick : Nat
  other : δ

/-- The memory reached by the usage functions: the state and the disks, a disk
pointer being the position of the disk. -/
structure usage_mem (α δ : Type) where
  state : snapraid_state α
  disks : List (snapraid_disk δ)

/-- The `uint64_t` difference `now - tick_last`. -/
def tick_elapsed (now tick_last : Nat) : Nat :=
  (now % 2 ^ 64 + (2 ^ 64 - tick_last % 2 ^ 64)) % 2 ^ 64

/-- Source `state_usage_waste`: set the usage time as wasted one, not counted.
`now` is the value returned by `tick()`. -/
def state_usage_waste {α δ : Type} (now : Nat) (m : usage_mem α δ) : usage_mem α δ :=
  { m with state := { m.state with tick_last := now } }

/-- Source `state_usage_cpu`: set the usage time for CPU. -/
def state_usage_cpu {α δ : Type} (now : Nat) (m : usage_mem α δ) : usage_mem α δ :=
  { m with state :=
      { m.state with
        tick_cpu := (m.state.tick_cpu + tick_elapsed now m.state.tick_last) % 2 ^ 64
        tick_last := now } }

/-- Source `state_usage_disk`: set the usage time for a data disk.  There is no
result for a pointer that is not one of the disks. -/
def state_usage_disk {α δ : Type} (now : Nat) (m : usage_mem α δ) (disk : Nat) :
    Option (usage_mem α δ) :=
  match m.disks.get? disk with
  | none => none
  | some d =>
    some
      { state := { m.state with tick_last := now }
        disks := m.disks.set disk
          { d with tick := (d.tick + tick_elapsed now m.state.tick_last) % 2 ^ 64 } }

/-- Source `state_usage_parity`: set the usage time for a parity disk.  There
is no result when `assert(level < LEV_MAX)` fails. -/
def state_usage_parity {α δ : Type} (now : Nat) (m : usage_mem α δ) (level : Nat) :
    Option (usage_mem α δ) :=
  if level < LEV_MAX then
    some
      { m with state :=
          { m.state with
            tick := m.state.tick.set level
              ((m.state.tick.getD level 0 + tick_elapsed now m.state.tick_last) % 2 ^ 64)
            tick_last := now } }
  else
    none

/-! ## Inputs used in the examples -/

/-- The file time of 1969-12-31 23:59:59, one second before the Unix epoch. -/
def filetime_1969 : FILETIME := FILETIME.ofNat (116444736000000000 - 10000000)

/-- A disk designator path of 1020 chars: `C:/` followed by 1017 times `a`. -/
def long_disk_path : List Nat := [67, 58, 47] ++ List.replicate 1017 97

/-- A UNC path of 1018 chars: `//` followed by 1016 times `a`. -/
def long_unc_path : List Nat := [47, 47] ++ List.replicate 1016 97

/-- A path of 1024 chars in the extended-length format: `//?/` followed by 1020 times `a`. -/
def long_ext_path : List Nat := [47, 47, 63, 47] ++ List.replicate 1020 97

/-- A relative path of 1024 chars: 1024 times `a`. -/
def long_rel_path : List Nat := [] ++ List.replicate 1024 97

/-- The chars of the relative path `dir/file`. -/
def rel_path : List Nat := [100, 105, 114, 47, 102, 105, 108, 101]

/-- A state with `tick_last = 100`, six parity counters and one disk. -/
def sample_mem : usage_mem Unit Unit :=
  { state := { tick := [0, 0, 7, 0, 0, 0], tick_cpu := 5, tick_last := 100, other := () }
    disks := [{ tick := 1, other := () }] }

/-- A scripted operating system used in the examples: the outcomes that the
next `ReadFile` or `WriteFile` calls give, the entries that a directory search
still has to give, and the list of the calls made so far. -/
structure sample_world where
  outcomes : List (Except Nat Nat)
  entries : List WIN32_FIND_DATAW
  calls : List String

/-- The calls of the scripted operating system: the file descriptor 3 has the
handle 7, a search has the handle 9, and setting the file pointer succeeds. -/
def sample_os : Win32 sample_world :=
  { get_osfhandle := fun _ fd => if fd = 3 then some 7 else none
    SetFilePointerEx := fun k _ pos _ =>
      ({ k with calls := k.calls ++ ["SetFilePointerEx"] }, Except.ok pos)
    SetFileTime := fun k _ _ => (k, Except.ok ())
    ReadFile := fun k _ _ =>
      match k.outcomes with
      | [] => ({ k with calls := k.calls ++ ["ReadFile"] }, Except.ok 0)
      | r :: rs => ({ k with outcomes := rs, calls := k.calls ++ ["ReadFile"] }, r)
    WriteFile := fun k _ _ _ =>
      match k.outcomes with
      | [] => ({ k with calls := k.calls ++ ["WriteFile"] }, Except.ok 0)
      | r :: rs => ({ k with outcomes := rs, calls := k.calls ++ ["WriteFile"] }, r)
    Sleep := fun k _ => { k with calls := k.calls ++ ["Sleep"] }
    FindFirstFileW := fun k _ =>
      match k.entries with
      | [] => (k, Except.error ERROR_FILE_NOT_FOUND)
      | e :: es => ({ k with entries := es }, Except.ok (9, e))
    FindNextFileW := fun k _ =>
      match k.entries with
      | [] => (k, Except.error ERROR_NO_MORE_FILES)
      | e :: es => ({ k with entries := es }, Except.ok e)
    FindClose := fun k _ => (k, Except.ok ()) }

/-- Two failures with `ERROR_NO_SYSTEM_RESOURCES`, then 512 bytes moved. -/
def sample_outcomes : List (Except Nat Nat) :=
  [Except.error ERROR_NO_SYSTEM_RESOURCES, Except.error ERROR_NO_SYSTEM_RESOURCES, Except.ok 512]

/-- The find data of a file named `a`. -/
def sample_entry_a : WIN32_FIND_DATAW := ⟨32, filetime_1969, 0, 5, 0, [97]⟩

/-- The find data of a hidden file named `b`. -/
def sample_entry_b : WIN32_FIND_DATAW := ⟨34, filetime_1969, 0, 9, 0, [98]⟩

/-- An entry buffer as `malloc` may give it. -/
def sample_buffer : windows_dirent := ⟨[120], true, ⟨0, ⟨0, 0⟩, 0, 0, 0, []⟩⟩

/-! # Theorems -/

/-! ## Lemmas on the machine arithmetic -/

theorem shl32_or (hi lo : Nat) (hhi : hi < 2 ^ 32) (hlo : lo < 2 ^ 32) :
    ((hi <<< 32) % 2 ^ 64) ||| lo = hi * 2 ^ 32 + lo := by
  have h1 : hi <<< 32 = 2 ^ 32 * hi := by rw [Nat.shiftLeft_eq, Nat.mul_comm]
  have h2 : 2 ^ 32 * hi < 2 ^ 64 := by omega
  rw [h1, Nat.mod_eq_of_lt h2, ← Nat.mul_add_lt_is_or hlo hi, Nat.mul_comm]

theorem toI64_small (n : Nat) (h : n < 2 ^ 63) : toI64 n = (n : Int) := by
  unfold toI64
  have h1 : n % 2 ^ 64 = n := Nat.mod_eq_of_lt (by omega)
  rw [h1, if_pos h]

theorem toI32_small (n : Nat) (h : n < 2 ^ 31) : toI32 n = (n : Int) := by
  unfold toI32
  have h1 : n % 2 ^ 32 = n := Nat.mod_eq_of_lt (by omega)
  rw [h1, if_pos h]

theorem toU64_natCast (n : Nat) (h : n < 2 ^ 64) : toU64 (n : Int) = n := by
  unfold toU64
  omega

theorem info2stat_mtime (info : BY_HANDLE_FILE_INFORMATION) (tag : FILE_ATTRIBUTE_TAG_INFO)
    (h : info.ftLastWriteTime.valid) :
    (windows_info2stat info tag).st_mtime = ((unixTicks info.ftLastWriteTime / 10000000 : Nat) : Int)
    ∧ (windows_info2stat info tag).st_mtimensec
        = ((unixTicks info.ftLastWriteTime % 10000000 * 100 : Nat) : Int) := by
  obtain ⟨hlo, hhi⟩ := h
  simp only [windows_info2stat, unixTicks, FILETIME.toNat]
  rw [shl32_or _ _ hhi hlo]
  constructor
  · apply toI64_small; omega
  · have : (info.ftLastWriteTime.dwHighDateTime * 2 ^ 32 + info.ftLastWriteTime.dwLowDateTime +
        (2 ^ 64 - 116444736000000000)) % 2 ^ 64 % 10000000 * 100 % 2 ^ 64
        = (info.ftLastWriteTime.dwHighDateTime * 2 ^ 32 + info.ftLastWriteTime.dwLowDateTime +
        (2 ^ 64 - 116444736000000000)) % 2 ^ 64 % 10000000 * 100 := by omega
    rw [this]
    apply toI32_small; omega

theorem finddata2stat_mtime (info : WIN32_FIND_DATAW) (h : info.ftLastWriteTime.valid) :
    (windows_finddata2stat info).st_mtime = ((unixTicks info.ftLastWriteTime / 10000000 : Nat) : Int)
    ∧ (windows_finddata2stat info).st_mtimensec
        = ((unixTicks info.ftLastWriteTime % 10000000 * 100 : Nat) : Int) := by
  obtain ⟨hlo, hhi⟩ := h
  simp only [windows_finddata2stat, unixTicks, FILETIME.toNat]
  rw [shl32_or _ _ hhi hlo]
  constructor
  · apply toI64_small; omega
  · have : (info.ftLastWriteTime.dwHighDateTime * 2 ^ 32 + info.ftLastWriteTime.dwLowDateTime +
        (2 ^ 64 - 116444736000000000)) % 2 ^ 64 % 10000000 * 100 % 2 ^ 64
        = (info.ftLastWriteTime.dwHighDateTime * 2 ^ 32 + info.ftLastWriteTime.dwLowDateTime +
        (2 ^ 64 - 116444736000000000)) % 2 ^ 64 % 10000000 * 100 := by omega
    rw [this]
    apply toI32_small; omega

theorem futimens_of_ticks (ft : FILETIME) (h : ft.valid) :
    futimens_filetime { tv_sec := ((unixTicks ft / 10000000 : Nat) : Int)
                        tv_nsec := ((unixTicks ft % 10000000 * 100 : Nat) : Int) } = ft := by
  obtain ⟨hlo, hhi⟩ := h
  obtain ⟨lo, hi⟩ := ft
  simp only at hlo hhi
  have hu : unixTicks ⟨lo, hi⟩ < 2 ^ 64 := by unfold unixTicks; omega
  have hdef : unixTicks ⟨lo, hi⟩ = (hi * 2 ^ 32 + lo + (2 ^ 64 - 116444736000000000)) % 2 ^ 64 := rfl
  generalize unixTicks ⟨lo, hi⟩ = m at hu hdef
  simp only [futimens_filetime]
  have e1 : Int.tdiv ((m % 10000000 * 100 : Nat) : Int) 100 = ((m % 10000000 * 100 / 100 : Nat) : Int) :=
    (Int.ofNat_tdiv _ _).symm
  rw [e1, toU64_natCast _ (by omega), toU64_natCast _ (by omega), Nat.shiftRight_eq_div_pow]
  rw [FILETIME.mk.injEq]
  constructor <;> omega

/-- C1. Modification-time round trip: the stat record that `windows_info2stat`
computes from a file time, given back to `windows_futimens` as `tv[0]`, makes
it build exactly the original `FILETIME` (all arithmetic modulo 2^64); with a
file descriptor that has a handle, this is the `FILETIME` that
`windows_futimens` hands to `SetFileTime`. -/
theorem futimens_info2stat_roundtrip (info : BY_HANDLE_FILE_INFORMATION)
    (tag : FILE_ATTRIBUTE_TAG_INFO) (h : info.ftLastWriteTime.valid) :
    futimens_filetime { tv_sec := (windows_info2stat info tag).st_mtime
                        tv_nsec := (windows_info2stat info tag).st_mtimensec }
      = info.ftLastWriteTime
    ∧ ∀ (σ : Type) (os : Win32 σ) (k : σ) (p : Proc) (fd : Int) (hnd : Nat),
        fd ≠ -1 → os.get_osfhandle k fd = some hnd →
        windows_futimens os k p fd
            { tv_sec := (windows_info2stat info tag).st_mtime
              tv_nsec := (windows_info2stat info tag).st_mtimensec }
          = match os.SetFileTime k hnd info.ftLastWriteTime with
            | (k1, Except.error e) => (-1, k1, windows_errno e p)
            | (k1, Except.ok _) => (0, k1, p) := by
  obtain ⟨h1, h2⟩ := info2stat_mtime info tag h
  rw [h1, h2]
  have key := futimens_of_ticks _ h
  refine ⟨key, ?_⟩
  intro σ os k p fd hnd hfd hh
  unfold windows_futimens
  rw [if_neg hfd, hh]
  simp only [key]

/-- Witness of C1: the round trip at the file time of 1969-12-31 23:59:59. -/
theorem futimens_info2stat_roundtrip_witness :
    futimens_filetime
      { tv_sec := (windows_info2stat ⟨32, filetime_1969, 7, 0, 5, 1, 0, 9⟩ ⟨32, 0⟩).st_mtime
        tv_nsec := (windows_info2stat ⟨32, filetime_1969, 7, 0, 5, 1, 0, 9⟩ ⟨32, 0⟩).st_mtimensec }
      = filetime_1969 :=
  (futimens_info2stat_roundtrip ⟨32, filetime_1969, 7, 0, 5, 1, 0, 9⟩ ⟨32, 0⟩ (by decide)).1

/-- From 1970 on the conversion is the Unix time: for every `FILETIME` value
`ft` with `116444736000000000 ≤ ft`, `windows_info2stat` and
`windows_finddata2stat` store the same `st_mtime` and `st_mtimensec`, with
`st_mtime * 10^7 + st_mtimensec / 100 = ft - 116444736000000000` exactly. -/
theorem unix_time_from_1970 (info : BY_HANDLE_FILE_INFORMATION)
    (tag : FILE_ATTRIBUTE_TAG_INFO) (fd : WIN32_FIND_DATAW) (ft : FILETIME)
    (h : ft.valid) (hi : info.ftLastWriteTime = ft) (hf : fd.ftLastWriteTime = ft)
    (h1970 : 116444736000000000 ≤ ft.toNat) :
    (windows_finddata2stat fd).st_mtime = (windows_info2stat info tag).st_mtime
    ∧ (windows_finddata2stat fd).st_mtimensec = (windows_info2stat info tag).st_mtimensec
    ∧ (windows_info2stat info tag).st_mtime * 10000000
        + (windows_info2stat info tag).st_mtimensec / 100
        = (ft.toNat : Int) - 116444736000000000
    ∧ 0 ≤ (windows_info2stat info tag).st_mtimensec
    ∧ (windows_info2stat info tag).st_mtimensec < 1000000000 := by
  subst hi
  obtain ⟨a1, a2⟩ := info2stat_mtime info tag h
  obtain ⟨b1, b2⟩ := finddata2stat_mtime fd (hf ▸ h)
  rw [hf] at b1 b2
  rw [a1, a2, b1, b2]
  have hv := h
  obtain ⟨hlo, hhi⟩ := hv
  have hu : unixTicks info.ftLastWriteTime
      = (info.ftLastWriteTime.toNat + (2 ^ 64 - 116444736000000000)) % 2 ^ 64 := rfl
  have hb : info.ftLastWriteTime.toNat < 2 ^ 64 := by unfold FILETIME.toNat; omega
  generalize unixTicks info.ftLastWriteTime = m at hu
  generalize info.ftLastWriteTime.toNat = v at hu hb h1970
  refine ⟨rfl, rfl, ?_, ?_, ?_⟩ <;> omega

/-- C2.  The code misses the conversion to Unix time for a file time before
1970.  For the file time of 1969-12-31 23:59:59, one second before the epoch,
the Unix time is -1 second and 0 nanoseconds; `windows_info2stat` and
`windows_finddata2stat` store 1844674407369 seconds and 955161600 nanoseconds,
the subtraction and the division being made in the unsigned `mtime`, and the
equation `st_mtime * 10^7 + st_mtimensec / 100 = ft - 116444736000000000` does
not hold.  The signed value -1 would be turned back by `windows_futimens`
into the same file time. -/
theorem info2stat_before_1970 :
    filetime_1969.toNat = 116444736000000000 - 10000000
    ∧ (windows_info2stat ⟨32, filetime_1969, 7, 0, 5, 1, 0, 9⟩ ⟨32, 0⟩).st_mtime = 1844674407369
    ∧ (windows_info2stat ⟨32, filetime_1969, 7, 0, 5, 1, 0, 9⟩ ⟨32, 0⟩).st_mtimensec = 955161600
    ∧ (windows_info2stat ⟨32, filetime_1969, 7, 0, 5, 1, 0, 9⟩ ⟨32, 0⟩).st_mtime * 10000000
        + (windows_info2stat ⟨32, filetime_1969, 7, 0, 5, 1, 0, 9⟩ ⟨32, 0⟩).st_mtimensec / 100
        ≠ (filetime_1969.toNat : Int) - 116444736000000000
    ∧ (windows_finddata2stat ⟨32, filetime_1969, 0, 5, 0, [97]⟩).st_mtime = 1844674407369
    ∧ (windows_finddata2stat ⟨32, filetime_1969, 0, 5, 0, [97]⟩).st_mtimensec = 955161600
    ∧ (-1 : Int) * 10000000 + (0 : Int) / 100 = (filetime_1969.toNat : Int) - 116444736000000000
    ∧ futimens_filetime { tv_sec := -1, tv_nsec := 0 } = filetime_1969 := by
  refine ⟨by decide, by decide, by decide, by decide, by decide, by decide, by decide,
    by decide⟩

/-! ## Lemmas on `convert_arg` -/

theorem to_backslash_ne_zero (c : Nat) (h : c ≠ 0) : to_backslash c ≠ 0 := by
  unfold to_backslash; split <;> omega

theorem convert_slashes_terminated (s rest : List Nat) (h : 0 ∉ s) :
    convert_slashes (s ++ 0 :: rest) = s.map to_backslash ++ 0 :: rest := by
  induction s with
  | nil => simp [convert_slashes]
  | cons c t ih =>
    have hc : c ≠ 0 := fun e => h (by simp [e])
    have ht : 0 ∉ t := fun m => h (List.mem_cons_of_mem _ m)
    simp [convert_slashes, hc, ih ht, to_backslash]

theorem wcs_terminated (s rest : List Nat) (h : 0 ∉ s) : wcs (s ++ 0 :: rest) = s := by
  induction s with
  | nil => simp [wcs]
  | cons c t ih =>
    have hc : c ≠ 0 := fun e => h (by simp [e])
    have ht : 0 ∉ t := fun m => h (List.mem_cons_of_mem _ m)
    have := ih ht
    simp only [wcs] at this ⊢
    have hb : (c != 0) = true := by simp [hc]
    simp [List.takeWhile, hb, this]

theorem map_to_backslash_nulfree (s : List Nat) (h : 0 ∉ s) : 0 ∉ s.map to_backslash := by
  intro m
  obtain ⟨c, hc, e⟩ := List.mem_map.1 m
  exact to_backslash_ne_zero c (fun z => h (z ▸ hc)) e

/-- The text written by `convert_arg` after a prefix without NUL: the decoded
string with its slashes replaced, when it fits the rest of the buffer. -/
theorem convert_tail (PATH_MAX : Nat) (decode : List Nat → List Nat) (pre s : List Nat)
    (hpre : 0 ∉ pre) (hs : 0 ∉ decode s) :
    (match MultiByteToWideChar decode s (PATH_MAX - pre.length) with
      | none => none
      | some out => some (wcs (pre ++ convert_slashes out)))
    = if pre.length + (decode s).length + 1 ≤ PATH_MAX
        then some (pre ++ (decode s).map to_backslash) else none := by
  unfold MultiByteToWideChar
  by_cases hfit : pre.length + (decode s).length + 1 ≤ PATH_MAX
  · have h1 : (decode s).length + 1 ≤ PATH_MAX - pre.length := by omega
    rw [if_pos h1, if_pos hfit]
    simp only
    rw [convert_slashes_terminated _ _ hs, ← List.append_assoc, wcs_terminated]
    intro m
    rcases List.mem_append.1 m with m | m
    · exact hpre m
    · exact map_to_backslash_nulfree _ hs m
  · have h1 : ¬ (decode s).length + 1 ≤ PATH_MAX - pre.length := by omega
    rw [if_neg h1, if_neg hfit]

theorem nulFree_id : NulFree id := fun _ h => h

theorem not_mem_drop_zero (src : List Nat) (n : Nat) (h : 0 ∉ src) : 0 ∉ src.drop n :=
  fun m => h (List.mem_of_mem_drop m)

theorem is_slash_iff (c : Nat) : is_slash c = true ↔ c = 47 ∨ c = 92 := by
  simp [is_slash]

/-- What `convert_arg` does with a disk designator path when the extended-length
format is not optional. -/
theorem convert_arg_disk (PATH_MAX : Nat) (decode : List Nat → List Nat)
    (src : List Nat) (hdec : NulFree decode) (hsrc : 0 ∉ src)
    (hd : is_disk_path src = true) :
    convert_arg PATH_MAX decode src 0 =
      if 4 + (decode src).length + 1 ≤ PATH_MAX
      then some (lead_ext ++ (decode src).map to_backslash) else none := by
  have ht := convert_tail PATH_MAX decode lead_ext src (by decide) (hdec src hsrc)
  simp only [lead_ext, List.length_cons, List.length_nil] at ht
  simp only [is_disk_path, Bool.and_eq_true, bne_iff_ne, beq_iff_eq] at hd
  obtain ⟨⟨h0, h1⟩, h2⟩ := hd
  have h58 : is_slash 58 = false := by decide
  simp [convert_arg, h0, h1, h2, h58, lead_ext]
  simpa using ht

/-- What `convert_arg` does with a UNC path that is not a `\\?\` path. -/
theorem convert_arg_unc (PATH_MAX : Nat) (decode : List Nat → List Nat)
    (src : List Nat) (hdec : NulFree decode) (hsrc : 0 ∉ src)
    (hu : is_unc_path src = true) (he : is_ext_path src = false) :
    convert_arg PATH_MAX decode src 0 =
      if 8 + (decode (src.drop 2)).length + 1 ≤ PATH_MAX
      then some (lead_unc ++ (decode (src.drop 2)).map to_backslash) else none := by
  have ht := convert_tail PATH_MAX decode lead_unc (src.drop 2) (by decide)
    (hdec _ (not_mem_drop_zero src 2 hsrc))
  simp only [lead_unc, List.length_cons, List.length_nil] at ht
  have he2 : ¬ (is_slash (cstr_at src 0) && is_slash (cstr_at src 1) && cstr_at src 2 == 63
        && is_slash (cstr_at src 3)) = true := by
    intro h; rw [is_ext_path, h] at he; exact Bool.noConfusion he
  have hu2 : (is_slash (cstr_at src 0) && is_slash (cstr_at src 1)) = true := hu
  have h0 : ¬ ((0 : Int) ≠ 0 ∧ src.length < 260 - 12) := fun h => h.1 rfl
  unfold convert_arg
  rw [if_neg h0, if_neg he2, if_pos hu2]
  simpa [lead_unc] using ht

/-- What `convert_arg` does when it adds no prefix. -/
theorem convert_arg_plain (PATH_MAX : Nat) (decode : List Nat → List Nat)
    (src : List Nat) (r : Int) (hdec : NulFree decode) (hsrc : 0 ∉ src)
    (h : (r ≠ 0 ∧ src.length < 260 - 12) ∨ is_ext_path src = true
      ∨ (is_unc_path src = false ∧ is_disk_path src = false)) :
    convert_arg PATH_MAX decode src r =
      if (decode src).length + 1 ≤ PATH_MAX
      then some ((decode src).map to_backslash) else none := by
  have ht := convert_tail PATH_MAX decode [] src (by simp) (hdec src hsrc)
  simp only [List.length_nil, List.nil_append, Nat.zero_add, Nat.sub_zero] at ht
  unfold convert_arg
  by_cases hA : r ≠ 0 ∧ src.length < 260 - 12
  · rw [if_pos hA]; simpa using ht
  · rw [if_neg hA]
    by_cases hB : (is_slash (cstr_at src 0) && is_slash (cstr_at src 1) && cstr_at src 2 == 63
        && is_slash (cstr_at src 3)) = true
    · rw [if_pos hB]; simpa using ht
    · rw [if_neg hB]
      rcases h with h | h | ⟨h1, h2⟩
      · exact absurd h hA
      · exact absurd h hB
      · have h1' : ¬ (is_slash (cstr_at src 0) && is_slash (cstr_at src 1)) = true := by
          intro h; rw [is_unc_path, h] at h1; exact Bool.noConfusion h1
        have h2' : ¬ (cstr_at src 0 != 0 && cstr_at src 1 == 58 && is_slash (cstr_at src 2)) = true := by
          intro h; rw [is_disk_path, h] at h2; exact Bool.noConfusion h2
        rw [if_neg h1', if_neg h2']; simpa using ht

theorem zero_not_mem_append_replicate (pre : List Nat) (n : Nat) (h : 0 ∉ pre) :
    0 ∉ pre ++ List.replicate n 97 := by
  intro m
  rcases List.mem_append.1 m with m | m
  · exact h m
  · exact absurd (List.eq_of_mem_replicate m) (by decide)

theorem long_disk_path_length : long_disk_path.length = 1020 := by
  simp only [long_disk_path, List.length_append, List.length_replicate, List.length_cons,
    List.length_nil]

theorem long_unc_path_length : long_unc_path.length = 1018 := by
  simp only [long_unc_path, List.length_append, List.length_replicate, List.length_cons,
    List.length_nil]

theorem long_ext_path_length : long_ext_path.length = 1024 := by
  simp only [long_ext_path, List.length_append, List.length_replicate, List.length_cons,
    List.length_nil]

theorem long_rel_path_length : long_rel_path.length = 1024 := by
  simp only [long_rel_path, List.length_append, List.length_replicate, List.length_nil]

/-! ## Claims on `convert_arg` -/

/-- C3, as stated, fails: `C:/` followed by 1017 times `a` is a disk designator
path of 1020 chars, and with conversion buffers of 1024 wide chars the
conversion has no room for the four chars of `\\?\`, the 1020 chars of the
path and the terminating NUL: `convert_arg` returns nothing, the process exits. -/
theorem disk_designator_long_path_exits :
    cstr_at long_disk_path 0 ≠ 0 ∧ cstr_at long_disk_path 1 = 58
    ∧ cstr_at long_disk_path 2 = 47 ∧ long_disk_path.length = 1020
    ∧ convert_arg 1024 id long_disk_path 0 = none := by
  refine ⟨by decide, by decide, by decide, long_disk_path_length, ?_⟩
  rw [convert_arg_disk 1024 id long_disk_path nulFree_id
    (zero_not_mem_append_replicate _ _ (by decide)) (by decide)]
  have hl : (id long_disk_path).length = 1020 := long_disk_path_length
  rw [hl, if_neg (by omega)]

/-- C3, amended.  For every path whose first char is not NUL, whose second is
`:` and whose third is `/` or `\`, `convert_arg` with `only_if_required = 0`
returns the four chars `\\?\` followed by the whole converted path in which
every `/` is replaced by `\`, when these and the terminating NUL fit the
`PATH_MAX` wide chars of the conversion buffer; otherwise the conversion fails
and the process exits. -/
theorem convert_arg_disk_designator (PATH_MAX : Nat) (decode : List Nat → List Nat)
    (src : List Nat) (hdec : NulFree decode) (hsrc : 0 ∉ src)
    (h0 : cstr_at src 0 ≠ 0) (h1 : cstr_at src 1 = 58)
    (h2 : cstr_at src 2 = 47 ∨ cstr_at src 2 = 92) :
    convert_arg PATH_MAX decode src 0 =
      if 4 + (decode src).length + 1 ≤ PATH_MAX
      then some ([92, 92, 63, 92] ++ (decode src).map (fun c => if c = 47 then 92 else c))
      else none := by
  have hd : is_disk_path src = true := by
    simp [is_disk_path, h0, h1, (is_slash_iff _).2 h2]
  exact convert_arg_disk PATH_MAX decode src hdec hsrc hd

/-- Witness of C3 (amended): the path `C:/d`. -/
theorem convert_arg_disk_designator_witness :
    convert_arg 1024 id [67, 58, 47, 100] 0 = some [92, 92, 63, 92, 67, 58, 92, 100] :=
  convert_arg_disk_designator 1024 id [67, 58, 47, 100] nulFree_id (by decide) (by decide)
    (by decide) (by decide)

/-- C4, as stated, fails: `//` followed by 1016 times `a` is a UNC path of 1018
chars that is not a `\\?\` path, and with conversion buffers of 1024 wide
chars the conversion has no room for the eight chars of `\\?\UNC\`, the 1016
remaining chars and the terminating NUL: the process exits. -/
theorem unc_long_path_exits :
    cstr_at long_unc_path 0 = 47 ∧ cstr_at long_unc_path 1 = 47
    ∧ is_ext_path long_unc_path = false ∧ long_unc_path.length = 1018
    ∧ convert_arg 1024 id long_unc_path 0 = none := by
  refine ⟨by decide, by decide, by decide, long_unc_path_length, ?_⟩
  rw [convert_arg_unc 1024 id long_unc_path nulFree_id
    (zero_not_mem_append_replicate _ _ (by decide)) (by decide) (by decide)]
  have hl : (id (long_unc_path.drop 2)).length = 1016 := by
    simp only [id, List.length_drop, long_unc_path_length]
  rw [hl, if_neg (by omega)]

/-- C4, amended.  For every path that starts with two slashes (each `/` or `\`)
and is not a `\\?\` path, `convert_arg` with `only_if_required = 0` returns
`\\?\UNC\` followed by the converted path without its two leading slashes, in
which every `/` is replaced by `\`, when these and the terminating NUL fit the
`PATH_MAX` wide chars of the conversion buffer; otherwise the conversion fails
and the process exits. -/
theorem convert_arg_unc_path (PATH_MAX : Nat) (decode : List Nat → List Nat)
    (src : List Nat) (hdec : NulFree decode) (hsrc : 0 ∉ src)
    (h0 : cstr_at src 0 = 47 ∨ cstr_at src 0 = 92)
    (h1 : cstr_at src 1 = 47 ∨ cstr_at src 1 = 92)
    (he : ¬ (cstr_at src 2 = 63 ∧ (cstr_at src 3 = 47 ∨ cstr_at src 3 = 92))) :
    convert_arg PATH_MAX decode src 0 =
      if 8 + (decode (src.drop 2)).length + 1 ≤ PATH_MAX
      then some ([92, 92, 63, 92, 85, 78, 67, 92]
        ++ (decode (src.drop 2)).map (fun c => if c = 47 then 92 else c))
      else none := by
  have hu : is_unc_path src = true := by
    simp [is_unc_path, (is_slash_iff _).2 h0, (is_slash_iff _).2 h1]
  have hx : is_ext_path src = false := by
    cases hb : is_ext_path src with
    | false => rfl
    | true =>
      simp only [is_ext_path, Bool.and_eq_true, beq_iff_eq, is_slash_iff] at hb
      exact absurd ⟨hb.1.2, hb.2⟩ he
  exact convert_arg_unc PATH_MAX decode src hdec hsrc hu hx

/-- Witness of C4 (amended): the path `//s/x` becomes `\\?\UNC\s\x`. -/
theorem convert_arg_unc_path_witness :
    convert_arg 1024 id [47, 47, 115, 47, 120] 0
      = some [92, 92, 63, 92, 85, 78, 67, 92, 115, 92, 120] :=
  convert_arg_unc_path 1024 id [47, 47, 115, 47, 120] nulFree_id (by decide) (by decide)
    (by decide) (by decide)

/-- C5, as stated, fails: `//?/` followed by 1020 times `a` is a `\\?\` path of
1024 chars, and conversion buffers of 1024 wide chars have no room for it and
the terminating NUL: there is no result, the process exits. -/
theorem ext_long_path_exits :
    cstr_at long_ext_path 0 = 47 ∧ cstr_at long_ext_path 1 = 47
    ∧ cstr_at long_ext_path 2 = 63 ∧ cstr_at long_ext_path 3 = 47
    ∧ long_ext_path.length = 1024
    ∧ convert_arg 1024 id long_ext_path 0 = none := by
  refine ⟨by decide, by decide, by decide, by decide, long_ext_path_length, ?_⟩
  rw [convert_arg_plain 1024 id long_ext_path 0 nulFree_id
    (zero_not_mem_append_replicate _ _ (by decide)) (Or.inr (Or.inl (by decide)))]
  have hl : (id long_ext_path).length = 1024 := long_ext_path_length
  rw [hl, if_neg (by omega)]

/-- C5, amended.  For every path whose first four chars are slash, slash, `?`,
slash (each slash being `/` or `\`), `convert_arg` with `only_if_required = 0`
adds no prefix: when the converted path and the terminating NUL fit the
`PATH_MAX` wide chars of the conversion buffer, the result is the converted
path with every `/` replaced by `\`, of the same length as the converted path
(as the path itself when the conversion keeps its chars); otherwise the
conversion fails and the process exits. -/
theorem convert_arg_ext_path (PATH_MAX : Nat) (decode : List Nat → List Nat)
    (src : List Nat) (hdec : NulFree decode) (hsrc : 0 ∉ src)
    (h0 : cstr_at src 0 = 47 ∨ cstr_at src 0 = 92)
    (h1 : cstr_at src 1 = 47 ∨ cstr_at src 1 = 92)
    (h2 : cstr_at src 2 = 63)
    (h3 : cstr_at src 3 = 47 ∨ cstr_at src 3 = 92) :
    convert_arg PATH_MAX decode src 0 =
      (if (decode src).length + 1 ≤ PATH_MAX
      then some ((decode src).map (fun c => if c = 47 then 92 else c))
      else none)
    ∧ (∀ r, convert_arg PATH_MAX decode src 0 = some r →
        r.length = (decode src).length ∧ (decode src = src → r.length = src.length)) := by
  have hx : is_ext_path src = true := by
    simp [is_ext_path, (is_slash_iff _).2 h0, (is_slash_iff _).2 h1, h2, (is_slash_iff _).2 h3]
  have key := convert_arg_plain PATH_MAX decode src 0 hdec hsrc (Or.inr (Or.inl hx))
  refine ⟨key, ?_⟩
  intro r hr
  rw [key] at hr
  split at hr
  · injection hr with hr
    subst hr
    refine ⟨by rw [List.length_map], fun e => by rw [List.length_map, e]⟩
  · exact Option.noConfusion hr

/-- Witness of C5 (amended): the path `//?/C:/x` becomes `\\?\C:\x`. -/
theorem convert_arg_ext_path_witness :
    convert_arg 1024 id [47, 47, 63, 47, 67, 58, 47, 120] 0
      = some [92, 92, 63, 92, 67, 58, 92, 120] :=
  (convert_arg_ext_path 1024 id [47, 47, 63, 47, 67, 58, 47, 120] nulFree_id (by decide)
    (by decide) (by decide) (by decide) (by decide)).1

/-- C6, as stated, fails: the relative path `dir/file` is neither a `\\?\` path,
nor a disk designator path, nor a UNC path, and `convert_arg` changes its `/`
into `\`: the result is `dir\file`, not the input.  Moreover a relative path
of 1024 chars does not fit conversion buffers of 1024 wide chars with its
terminating NUL: there is no result, the process exits. -/
theorem rel_path_slash_converted :
    is_ext_path rel_path = false ∧ is_disk_path rel_path = false
    ∧ is_unc_path rel_path = false
    ∧ convert_arg 1024 id rel_path 0 = some [100, 105, 114, 92, 102, 105, 108, 101]
    ∧ convert_arg 1024 id rel_path 1 = some [100, 105, 114, 92, 102, 105, 108, 101]
    ∧ convert_arg 1024 id rel_path 0 ≠ some rel_path
    ∧ is_ext_path long_rel_path = false ∧ is_disk_path long_rel_path = false
    ∧ is_unc_path long_rel_path = false
    ∧ convert_arg 1024 id long_rel_path 0 = none := by
  refine ⟨by decide, by decide, by decide, by decide, by decide, by decide, by decide,
    by decide, by decide, ?_⟩
  rw [convert_arg_plain 1024 id long_rel_path 0 nulFree_id
    (zero_not_mem_append_replicate _ _ (by decide)) (Or.inr (Or.inr ⟨by decide, by decide⟩))]
  have hl : (id long_rel_path).length = 1024 := long_rel_path_length
  rw [hl, if_neg (by omega)]

/-- C6, amended.  For every path that is neither a `\\?\` path, nor a disk
designator path, nor a UNC path, and for every value of `only_if_required`,
`convert_arg` adds no prefix and changes no char but the slashes: when the
converted path and the terminating NUL fit the `PATH_MAX` wide chars of the
conversion buffer, the result is the converted path with every `/` replaced
by `\`; otherwise the conversion fails and the process exits. -/
theorem convert_arg_other_path (PATH_MAX : Nat) (decode : List Nat → List Nat)
    (src : List Nat) (only_if_required : Int) (hdec : NulFree decode) (hsrc : 0 ∉ src)
    (_he : is_ext_path src = false) (hd : is_disk_path src = false)
    (hu : is_unc_path src = false) :
    convert_arg PATH_MAX decode src only_if_required =
      if (decode src).length + 1 ≤ PATH_MAX
      then some ((decode src).map (fun c => if c = 47 then 92 else c))
      else none :=
  convert_arg_plain PATH_MAX decode src only_if_required hdec hsrc (Or.inr (Or.inr ⟨hu, hd⟩))

/-- Witness of C6 (amended): the relative path `dir/file` becomes `dir\file`. -/
theorem convert_arg_other_path_witness :
    convert_arg 1024 id rel_path 0 = some [100, 105, 114, 92, 102, 105, 108, 101] :=
  convert_arg_other_path 1024 id rel_path 0 nulFree_id (by decide) (by decide) (by decide)
    (by decide)

/-- C7.  Extended-length format only if required: when the conversion never
yields more wide chars than the path has chars, and a conversion buffer holds
at least 248 wide chars, `convert_arg` with `only_if_required = 1` adds no
prefix to a path shorter than 248 chars (the result is the converted path with
every `/` replaced by `\`), and for a path of 248 chars or more it returns
exactly what `convert_arg` with `only_if_required = 0` returns. -/
theorem convert_arg_if_required (PATH_MAX : Nat) (decode : List Nat → List Nat)
    (src : List Nat) (hdec : NulFree decode) (hsrc : 0 ∉ src)
    (hlen : ∀ s : List Nat, (decode s).length ≤ s.length) (hmax : 248 ≤ PATH_MAX) :
    (src.length < 248 →
      convert_arg PATH_MAX decode src 1
        = some ((decode src).map (fun c => if c = 47 then 92 else c)))
    ∧ (248 ≤ src.length →
      convert_arg PATH_MAX decode src 1 = convert_arg PATH_MAX decode src 0) := by
  constructor
  · intro h
    have h1 : ((1 : Int) ≠ 0 ∧ src.length < 260 - 12) := ⟨by decide, by omega⟩
    rw [convert_arg_plain PATH_MAX decode src 1 hdec hsrc (Or.inl h1)]
    have := hlen src
    rw [if_pos (by omega)]
    rfl
  · intro h
    have h1 : ¬ ((1 : Int) ≠ 0 ∧ src.length < 260 - 12) := by omega
    have h0 : ¬ ((0 : Int) ≠ 0 ∧ src.length < 260 - 12) := fun x => x.1 rfl
    unfold convert_arg
    rw [if_neg h1, if_neg h0]

/-- Witness of C7: the short path `C:/d` gets no prefix when the extended-length
format is used only if required. -/
theorem convert_arg_if_required_witness :
    convert_arg 1024 id [67, 58, 47, 100] 1 = some [67, 58, 92, 100] :=
  (convert_arg_if_required 1024 id [67, 58, 47, 100] nulFree_id (by decide)
    (fun _ => Nat.le_refl _) (by decide)).1 (by decide)

/-! ## Usage accounting -/

theorem tick_elapsed_int (now t : Nat) :
    (tick_elapsed now t : Int) = ((now : Int) - (t : Int)) % 2 ^ 64 := by
  unfold tick_elapsed
  omega

theorem tick_elapsed_exact (now t : Nat) (hn : now < 2 ^ 64) (ht : t ≤ now) :
    tick_elapsed now t = now - t := by
  unfold tick_elapsed
  omega

/-- C8.  Usage accounting frame.  With `tick_last = t` and a clock reading
`now`, `state_usage_cpu` adds the `uint64_t` difference `now - t` to `tick_cpu`
only, `state_usage_disk` adds it to the tick of the given disk only,
`state_usage_parity` with `level < LEV_MAX` adds it to `tick[level]` only, and
`state_usage_waste` adds it to no counter; each of the four sets
`tick_last = now` and leaves every other counter and field unchanged.  The
difference added is `now - t` itself when the clock has not gone back. -/
theorem usage_accounting_frame {α δ : Type} (now : Nat) (m : usage_mem α δ)
    (level disk : Nat) (d : snapraid_disk δ)
    (hlevel : level < LEV_MAX) (hlen : m.state.tick.length = LEV_MAX)
    (hdisk : m.disks.get? disk = some d) :
    /- state_usage_cpu -/
    (state_usage_cpu now m =
      { state := { tick := m.state.tick
                   tick_cpu := (m.state.tick_cpu + tick_elapsed now m.state.tick_last) % 2 ^ 64
                   tick_last := now
                   other := m.state.other }
        disks := m.disks })
    /- state_usage_disk -/
    ∧ (∃ m1, state_usage_disk now m disk = some m1
        ∧ m1.disks.get? disk
            = some { tick := (d.tick + tick_elapsed now m.state.tick_last) % 2 ^ 64
                     other := d.other }
        ∧ (∀ j, j ≠ disk → m1.disks.get? j = m.disks.get? j)
        ∧ m1.disks.length = m.disks.length
        ∧ m1.state = { m.state with tick_last := now })
    /- state_usage_parity -/
    ∧ (∃ m2, state_usage_parity now m level = some m2
        ∧ m2.state.tick.get? level
            = some ((m.state.tick.getD level 0 + tick_elapsed now m.state.tick_last) % 2 ^ 64)
        ∧ (∀ l, l ≠ level → m2.state.tick.get? l = m.state.tick.get? l)
        ∧ m2.state.tick.length = LEV_MAX
        ∧ m2.state.tick_cpu = m.state.tick_cpu
        ∧ m2.state.tick_last = now
        ∧ m2.state.other = m.state.other
        ∧ m2.disks = m.disks)
    /- state_usage_waste -/
    ∧ (state_usage_waste now m =
        { state := { tick := m.state.tick
                     tick_cpu := m.state.tick_cpu
                     tick_last := now
                     other := m.state.other }
          disks := m.disks })
    /- the difference added -/
    ∧ ((tick_elapsed now m.state.tick_last : Int)
          = ((now : Int) - (m.state.tick_last : Int)) % 2 ^ 64)
    ∧ (now < 2 ^ 64 → m.state.tick_last ≤ now →
        tick_elapsed now m.state.tick_last = now - m.state.tick_last) := by
  have hD : state_usage_disk now m disk = some
      { state := { m.state with tick_last := now }
        disks := m.disks.set disk
          { d with tick := (d.tick + tick_elapsed now m.state.tick_last) % 2 ^ 64 } } := by
    simp only [state_usage_disk, hdisk]
  have hP : state_usage_parity now m level = some
      { m with state :=
          { m.state with
            tick := m.state.tick.set level
              ((m.state.tick.getD level 0 + tick_elapsed now m.state.tick_last) % 2 ^ 64)
            tick_last := now } } := by
    simp only [state_usage_parity, if_pos hlevel]
  refine ⟨rfl, ⟨_, hD, ?_, ?_, ?_, rfl⟩, ⟨_, hP, ?_, ?_, ?_, rfl, rfl, rfl, rfl⟩, rfl,
    tick_elapsed_int _ _, tick_elapsed_exact _ _⟩
  · have hlt : disk < m.disks.length := by
      rcases Nat.lt_or_ge disk m.disks.length with h | h
      · exact h
      · rw [List.get?_eq_none.2 h] at hdisk; exact Option.noConfusion hdisk
    simp [List.getElem?_set, hlt]
  · intro j hj
    simp [List.getElem?_set, Ne.symm hj]
  · simp
  · have hlt : level < m.state.tick.length := by rw [hlen]; exact hlevel
    simp [List.getElem?_set, hlt]
  · intro l hl
    simp [List.getElem?_set, Ne.symm hl]
  · simp [hlen]

/-- Witness of C8: a state with `tick_last = 100`, the clock reading 130. -/
theorem usage_accounting_frame_witness :
    (state_usage_cpu 130 sample_mem).state.tick_cpu = 35
    ∧ (state_usage_cpu 130 sample_mem).state.tick_last = 130 := by
  rw [(usage_accounting_frame 130 sample_mem 2 0 ⟨1, ()⟩ (by decide) (by decide) rfl).1]
  decide

/-! ## Error mapping and seeking -/

/-- C9.  Windows error to errno table: `windows_errno` maps each of the twelve
listed error codes to its errno value and every other error code to `EIO`, so
that errno is always set to one of ten values, whatever it held before. -/
theorem windows_errno_table (p : Proc) :
    (windows_errno ERROR_INVALID_HANDLE p).errno = EBADF
    ∧ (windows_errno ERROR_FILE_NOT_FOUND p).errno = ENOENT
    ∧ (windows_errno ERROR_PATH_NOT_FOUND p).errno = ENOENT
    ∧ (windows_errno ERROR_ACCESS_DENIED p).errno = EACCES
    ∧ (windows_errno ERROR_CURRENT_DIRECTORY p).errno = EACCES
    ∧ (windows_errno ERROR_SHARING_VIOLATION p).errno = EACCES
    ∧ (windows_errno ERROR_ALREADY_EXISTS p).errno = EEXIST
    ∧ (windows_errno ERROR_DISK_FULL p).errno = ENOSPC
    ∧ (windows_errno ERROR_BUFFER_OVERFLOW p).errno = ENAMETOOLONG
    ∧ (windows_errno ERROR_NOT_ENOUGH_MEMORY p).errno = ENOMEM
    ∧ (windows_errno ERROR_NOT_SUPPORTED p).errno = ENOSYS
    ∧ (windows_errno ERROR_PRIVILEGE_NOT_HELD p).errno = EPERM
    ∧ (∀ error : Nat,
        error ∉ [ERROR_INVALID_HANDLE, ERROR_FILE_NOT_FOUND, ERROR_PATH_NOT_FOUND,
          ERROR_ACCESS_DENIED, ERROR_CURRENT_DIRECTORY, ERROR_SHARING_VIOLATION,
          ERROR_ALREADY_EXISTS, ERROR_DISK_FULL, ERROR_BUFFER_OVERFLOW,
          ERROR_NOT_ENOUGH_MEMORY, ERROR_NOT_SUPPORTED, ERROR_PRIVILEGE_NOT_HELD] →
        (windows_errno error p).errno = EIO)
    ∧ (∀ error : Nat,
        (windows_errno error p).errno ∈
          [EBADF, ENOENT, EACCES, EEXIST, ENOSPC, ENAMETOOLONG, ENOMEM, ENOSYS, EPERM, EIO])
    ∧ (∀ (error : Nat) (q : Proc), (windows_errno error q).errno = (windows_errno error p).errno) := by
  refine ⟨rfl, rfl, rfl, rfl, rfl, rfl, rfl, rfl, rfl, rfl, rfl, rfl, ?_, ?_, ?_⟩
  · intro error h
    simp only [List.mem_cons, List.mem_singleton, List.not_mem_nil, or_false, not_or] at h
    obtain ⟨h1, h2, h3, h4, h5, h6, h7, h8, h9, h10, h11, h12⟩ := h
    simp [windows_errno, h1, h2, h3, h4, h5, h6, h7, h8, h9, h10, h11, h12]
  · intro error
    unfold windows_errno
    repeat' split
    all_goals simp
  · intro error q
    unfold windows_errno
    repeat' split
    all_goals rfl

/-- C10.  Only `SEEK_SET` is supported: for a file descriptor other than -1 and
a `whence` other than `SEEK_SET`, `windows_lseek` returns -1 with
`errno = EINVAL`, makes no call to the operating system (the file pointer
does not move) and writes nothing else; for the file descriptor -1 it returns
-1 with `errno = EBADF` whatever `whence` is. -/
theorem windows_lseek_only_seek_set {σ : Type} (os : Win32 σ) (k : σ) (p : Proc)
    (fd offset whence : Int) :
    (fd ≠ -1 → whence ≠ SEEK_SET →
      windows_lseek os k p fd offset whence = (-1, k, { p with errno := EINVAL }))
    ∧ windows_lseek os k p (-1) offset whence = (-1, k, { p with errno := EBADF }) := by
  constructor
  · intro hfd hw
    unfold windows_lseek
    rw [if_neg hfd, if_pos hw]
  · unfold windows_lseek
    rw [if_pos rfl]

/-! ## Directory enumeration -/

theorem takeWhile_terminated_length (s : List Nat) :
    ((s ++ [0]).takeWhile (fun c => c != 0)).length ≤ s.length := by
  induction s with
  | nil => simp [List.takeWhile]
  | cons c t ih =>
    by_cases hc : c = 0
    · subst hc
      simp [List.takeWhile]
    · have hb : (c != 0) = true := by simp [hc]
      rw [List.cons_append, List.takeWhile_cons]
      simp only [hb, if_true, List.length_cons]
      omega

theorem finddata2dirent_fits (PATH_MAX D_NAME_SIZE : Nat) (encode : List Nat → List Nat)
    (e : WIN32_FIND_DATAW) (b : windows_dirent)
    (henc : ∀ s : List Nat, (encode s).length ≤ 3 * s.length)
    (hpm : 778 ≤ PATH_MAX) (hdn : 779 ≤ D_NAME_SIZE) (hname : e.cFileName.length < 260) :
    windows_finddata2dirent PATH_MAX D_NAME_SIZE encode e { b with d_data := e }
      = some (dirent_of encode e) := by
  have h1 := henc e.cFileName
  have h2 := takeWhile_terminated_length (encode e.cFileName)
  have hfit : (encode e.cFileName).length + 1 ≤ PATH_MAX := by omega
  have hlen : ¬ ((encode e.cFileName ++ [0]).takeWhile (fun c => c != 0)).length + 1
      ≥ D_NAME_SIZE := by omega
  simp only [windows_finddata2dirent, u16tou8, WideCharToMultiByte, if_pos hfit, if_neg hlen,
    dirent_of]

theorem readdir_rest {σ : Type} (PATH_MAX D_NAME_SIZE : Nat) (encode : List Nat → List Nat)
    (os : Win32 σ) (h : Nat) (kf : σ)
    (henc : ∀ s : List Nat, (encode s).length ≤ 3 * s.length)
    (hpm : 778 ≤ PATH_MAX) (hdn : 779 ≤ D_NAME_SIZE) :
    ∀ (es : List WIN32_FIND_DATAW) (k : σ) (p : Proc) (b : windows_dirent),
      (∀ e ∈ es, e.cFileName.length < 260) →
      Enumerates os h k es kf →
      ∃ ds2, readdir_calls PATH_MAX D_NAME_SIZE encode os (es.length + 1) k p
          { h := some h, buffer := b, flags := 0 }
        = some (es.map (fun e => some (dirent_of encode e)) ++ [none], ds2, kf,
            { p with errno := 0 })
  | [], k, p, b, _, hen => by
    have hen1 : os.FindNextFileW k (some h) = (kf, Except.error ERROR_NO_MORE_FILES) := hen
    refine ⟨{ h := some h, buffer := b, flags := 0 }, ?_⟩
    simp [readdir_calls, windows_readdir, hen1]
  | e :: es, k, p, b, hn, hen => by
    obtain ⟨k1, hnext, hrest⟩ := hen
    have hfit := finddata2dirent_fits PATH_MAX D_NAME_SIZE encode e b henc hpm hdn
      (hn e (List.mem_cons_self _ _))
    obtain ⟨ds2, hcalls⟩ := readdir_rest PATH_MAX D_NAME_SIZE encode os h kf henc hpm hdn es k1 p
      (dirent_of encode e) (fun x hx => hn x (List.mem_cons_of_mem _ hx)) hrest
    refine ⟨ds2, ?_⟩
    rw [List.length_cons, readdir_calls]
    have hstep : windows_readdir PATH_MAX D_NAME_SIZE encode os k p
        { h := some h, buffer := b, flags := 0 }
        = some (some (dirent_of encode e),
            { h := some h, buffer := dirent_of encode e, flags := 0 }, k1, p) := by
      simp [windows_readdir, hnext, hfit]
    rw [hstep]
    simp only [hcalls, List.map_cons, List.cons_append]

/-- C11.  Directory enumeration.  After an `opendir` that succeeds (memory is
given, the directory converts and the search pattern fits its buffer): if
`FindFirstFileW` gives the entry e1 and `FindNextFileW` then gives the entries
of `es` and fails with `ERROR_NO_MORE_FILES`, `windows_opendir` returns a
stream on which the successive calls of `windows_readdir` return exactly
e1 and the entries of `es`, in that order, each once, and the next call
returns null with `errno = 0`; if `FindFirstFileW` fails with
`ERROR_FILE_NOT_FOUND` (empty directory), `windows_opendir` still returns a
stream, and every `windows_readdir` on it returns null with `errno = 0`.
The names are those of find data (fewer than 260 wide chars), of which the
UTF-8 form (at most three chars for a wide char) fits the conversion buffer
and the name of an entry. -/
theorem readdir_enumerates {σ : Type} (PATH_MAX D_NAME_SIZE : Nat)
    (decode encode : List Nat → List Nat) (os : Win32 σ) (k k1 kf : σ) (p : Proc)
    (buffer : windows_dirent) (dir wdir : List Nat) (h : Nat) (e1 : WIN32_FIND_DATAW)
    (es : List WIN32_FIND_DATAW)
    (henc : ∀ s : List Nat, (encode s).length ≤ 3 * s.length)
    (hpm : 778 ≤ PATH_MAX) (hdn : 779 ≤ D_NAME_SIZE)
    (hnames : ∀ e ∈ e1 :: es, e.cFileName.length < 260)
    (hconv : convert_arg PATH_MAX decode dir 0 = some wdir)
    (hroom : (opendir_pattern wdir).length + 1 ≤ PATH_MAX) :
    (os.FindFirstFileW k (opendir_pattern wdir) = (k1, Except.ok (h, e1)) →
      Enumerates os h k1 es kf →
      ∃ ds ds2,
        windows_opendir PATH_MAX D_NAME_SIZE decode encode os k p (some buffer) dir
          = some (some ds, k1, p)
        ∧ readdir_calls PATH_MAX D_NAME_SIZE encode os ((e1 :: es).length + 1) k1 p ds
          = some ((e1 :: es).map (fun e => some (dirent_of encode e)) ++ [none], ds2, kf,
              { p with errno := 0 }))
    ∧ (os.FindFirstFileW k (opendir_pattern wdir) = (k1, Except.error ERROR_FILE_NOT_FOUND) →
      ∃ ds,
        windows_opendir PATH_MAX D_NAME_SIZE decode encode os k p (some buffer) dir
          = some (some ds, k1, p)
        ∧ ∀ (k2 : σ) (p2 : Proc),
            windows_readdir PATH_MAX D_NAME_SIZE encode os k2 p2 ds
              = some (none, ds, k2, { p2 with errno := 0 })) := by
  have hr : ¬ (opendir_pattern wdir).length + 1 > PATH_MAX := by omega
  constructor
  · intro hfirst hen
    have hfit := finddata2dirent_fits PATH_MAX D_NAME_SIZE encode e1 buffer henc hpm hdn
      (hnames e1 (List.mem_cons_self _ _))
    obtain ⟨ds2, hcalls⟩ := readdir_rest PATH_MAX D_NAME_SIZE encode os h kf henc hpm hdn es k1 p
      (dirent_of encode e1) (fun x hx => hnames x (List.mem_cons_of_mem _ hx)) hen
    refine ⟨{ h := some h, buffer := dirent_of encode e1, flags := 1 }, ds2, ?_, ?_⟩
    · simp only [windows_opendir, hconv, if_neg hr, hfirst, hfit]
    · rw [List.length_cons, readdir_calls]
      have hstep : windows_readdir PATH_MAX D_NAME_SIZE encode os k1 p
          { h := some h, buffer := dirent_of encode e1, flags := 1 }
          = some (some (dirent_of encode e1),
              { h := some h, buffer := dirent_of encode e1, flags := 0 }, k1, p) := by
        simp [windows_readdir]
      rw [hstep]
      simp only [hcalls, List.map_cons, List.cons_append]
  · intro hfirst
    refine ⟨{ h := none, buffer := buffer, flags := -1 }, ?_, ?_⟩
    · simp only [windows_opendir, hconv, if_neg hr, hfirst, if_true]
    · intro k2 p2
      simp [windows_readdir]

/-- Witness of C11: a directory `d` of the scripted operating system with the
two entries `a` and `b`: three calls of `windows_readdir` return `a`, `b` and
null. -/
theorem readdir_enumerates_witness :
    ∃ ds ds2,
      windows_opendir 1024 1024 id id sample_os ⟨[], [sample_entry_a, sample_entry_b], []⟩
          ⟨5, []⟩ (some sample_buffer) [100]
        = some (some ds, ⟨[], [sample_entry_b], []⟩, ⟨5, []⟩)
      ∧ readdir_calls 1024 1024 id sample_os 3 ⟨[], [sample_entry_b], []⟩ ⟨5, []⟩ ds
        = some ([some (dirent_of id sample_entry_a), some (dirent_of id sample_entry_b), none],
            ds2, ⟨[], [], []⟩, ⟨0, []⟩) :=
  (readdir_enumerates 1024 1024 id id sample_os ⟨[], [sample_entry_a, sample_entry_b], []⟩
    ⟨[], [sample_entry_b], []⟩ ⟨[], [], []⟩ ⟨5, []⟩ sample_buffer [100] [100] 9 sample_entry_a
    [sample_entry_b] (fun s => by simp only [id]; omega) (by decide) (by decide) (by decide)
    (by decide) (by decide)).1 rfl ⟨_, rfl, rfl⟩

/-! ## Disk uuid -/

theorem fmt_x_small (v : Nat) (h : v < 16) : fmt_x v = [Nat.digitChar v] := by
  rw [fmt_x, dif_pos h]

theorem fmt_x_large (v : Nat) (h : ¬ v < 16) :
    fmt_x v = fmt_x (v / 16) ++ [Nat.digitChar (v % 16)] := by
  rw [fmt_x, dif_neg h]

theorem fmt_x_length_le (k : Nat) : ∀ v : Nat, v < 16 ^ (k + 1) → (fmt_x v).length ≤ k + 1 := by
  induction k with
  | zero =>
    intro v hv
    rw [fmt_x_small v (by simpa using hv)]
    simp
  | succ k ih =>
    intro v hv
    by_cases h : v < 16
    · rw [fmt_x_small v h]; simp
    · rw [fmt_x_large v h]
      have : v / 16 < 16 ^ (k + 1) := by
        rw [Nat.div_lt_iff_lt_mul (by decide)]
        rw [pow_succ] at hv
        exact hv
      have := ih _ this
      simp only [List.length_append, List.length_singleton]
      omega

/-- The digits of `%x` padded to `k + 1` chars are the padded digits of the
quotient by 16 followed by the last digit. -/
theorem pad_fmt_x_step (k : Nat) (v : Nat) (hv : v < 16 ^ (k + 2)) :
    List.replicate (k + 2 - (fmt_x v).length) '0' ++ fmt_x v
      = (List.replicate (k + 1 - (fmt_x (v / 16)).length) '0' ++ fmt_x (v / 16))
        ++ [Nat.digitChar (v % 16)] := by
  by_cases h : v < 16
  · have hq : v / 16 = 0 := Nat.div_eq_of_lt h
    have hm : v % 16 = v := Nat.mod_eq_of_lt h
    rw [hq, hm, fmt_x_small v h, fmt_x_small 0 (by decide)]
    simp only [List.length_singleton, Nat.add_sub_cancel]
    show List.replicate (k + 1) '0' ++ [Nat.digitChar v]
      = (List.replicate k '0' ++ ['0']) ++ [Nat.digitChar v]
    rw [← List.replicate_succ']
  · rw [fmt_x_large v h]
    simp only [List.length_append, List.length_singleton]
    have : v / 16 < 16 ^ (k + 1) := by
      rw [Nat.div_lt_iff_lt_mul (by decide)]
      rw [pow_succ] at hv
      exact hv
    have hl := fmt_x_length_le k _ this
    have e : k + 2 - ((fmt_x (v / 16)).length + 1) = k + 1 - (fmt_x (v / 16)).length := by omega
    rw [e, List.append_assoc]

theorem fmt_08x_digits (v : Nat) (hv : v < 2 ^ 32) :
    fmt_08x v =
      [Nat.digitChar (v / 268435456 % 16), Nat.digitChar (v / 16777216 % 16),
       Nat.digitChar (v / 1048576 % 16), Nat.digitChar (v / 65536 % 16),
       Nat.digitChar (v / 4096 % 16), Nat.digitChar (v / 256 % 16),
       Nat.digitChar (v / 16 % 16), Nat.digitChar (v % 16)] := by
  unfold fmt_08x
  have h7 : v < 16 ^ (6 + 2) := by norm_num at hv ⊢; exact hv
  have h6 : v / 16 < 16 ^ (5 + 2) := by norm_num at hv ⊢; omega
  have h5 : v / 16 / 16 < 16 ^ (4 + 2) := by norm_num at hv ⊢; omega
  have h4 : v / 16 / 16 / 16 < 16 ^ (3 + 2) := by norm_num at hv ⊢; omega
  have h3 : v / 16 / 16 / 16 / 16 < 16 ^ (2 + 2) := by norm_num at hv ⊢; omega
  have h2 : v / 16 / 16 / 16 / 16 / 16 < 16 ^ (1 + 2) := by norm_num at hv ⊢; omega
  have h1 : v / 16 / 16 / 16 / 16 / 16 / 16 < 16 ^ (0 + 2) := by norm_num at hv ⊢; omega
  have h0 : v / 16 / 16 / 16 / 16 / 16 / 16 / 16 < 16 := by norm_num at hv ⊢; omega
  rw [pad_fmt_x_step 6 v h7, pad_fmt_x_step 5 _ h6, pad_fmt_x_step 4 _ h5,
    pad_fmt_x_step 3 _ h4, pad_fmt_x_step 2 _ h3, pad_fmt_x_step 1 _ h2,
    pad_fmt_x_step 0 _ h1, fmt_x_small _ h0]
  have e1 : v / 16 / 16 = v / 256 := by omega
  have e2 : v / 16 / 16 / 16 = v / 4096 := by omega
  have e3 : v / 16 / 16 / 16 / 16 = v / 65536 := by omega
  have e4 : v / 16 / 16 / 16 / 16 / 16 = v / 1048576 := by omega
  have e5 : v / 16 / 16 / 16 / 16 / 16 / 16 = v / 16777216 := by omega
  have e6 : v / 16 / 16 / 16 / 16 / 16 / 16 / 16 = v / 268435456 := by omega
  have e7 : v / 268435456 % 16 = v / 268435456 := by omega
  rw [e6, e5, e4, e3, e2, e1, e7]
  simp

theorem hex_val_digitChar (d : Nat) (h : d < 16) : hex_val (Nat.digitChar d) = d := by
  interval_cases d <;> rfl

theorem digitChar_hex (d : Nat) (h : d < 16) : is_lower_hex (Nat.digitChar d) = true := by
  interval_cases d <;> rfl

theorem digitChar_inj (a b : Nat) (ha : a < 16) (hb : b < 16)
    (h : Nat.digitChar a = Nat.digitChar b) : a = b := by
  rw [← hex_val_digitChar a ha, ← hex_val_digitChar b hb, h]

theorem devuuid_string (device uuid_size : Nat) (hsize : 9 ≤ uuid_size) :
    (devuuid device uuid_size).2 =
      [Nat.digitChar (device % 2 ^ 32 / 268435456 % 16),
       Nat.digitChar (device % 2 ^ 32 / 16777216 % 16),
       Nat.digitChar (device % 2 ^ 32 / 1048576 % 16),
       Nat.digitChar (device % 2 ^ 32 / 65536 % 16),
       Nat.digitChar (device % 2 ^ 32 / 4096 % 16),
       Nat.digitChar (device % 2 ^ 32 / 256 % 16),
       Nat.digitChar (device % 2 ^ 32 / 16 % 16),
       Nat.digitChar (device % 2 ^ 32 % 16)] := by
  have e : device % 2 ^ 64 % 2 ^ 32 = device % 2 ^ 32 := by omega
  simp only [devuuid, snprintf_08x, e]
  rw [fmt_08x_digits _ (Nat.mod_lt _ (by decide))]
  have : uuid_size - 1 = 8 + (uuid_size - 9) := by omega
  rw [this]
  simp [List.take]

theorem devuuid_same_iff (d1 s1 d2 s2 : Nat) (h1 : 9 ≤ s1) (h2 : 9 ≤ s2) :
    (devuuid d1 s1).2 = (devuuid d2 s2).2 ↔ d1 % 2 ^ 32 = d2 % 2 ^ 32 := by
  rw [devuuid_string d1 s1 h1, devuuid_string d2 s2 h2]
  constructor
  · intro h
    simp only [List.cons.injEq, and_true] at h
    obtain ⟨a7, a6, a5, a4, a3, a2, a1, a0⟩ := h
    have b7 := digitChar_inj _ _ (Nat.mod_lt _ (by decide)) (Nat.mod_lt _ (by decide)) a7
    have b6 := digitChar_inj _ _ (Nat.mod_lt _ (by decide)) (Nat.mod_lt _ (by decide)) a6
    have b5 := digitChar_inj _ _ (Nat.mod_lt _ (by decide)) (Nat.mod_lt _ (by decide)) a5
    have b4 := digitChar_inj _ _ (Nat.mod_lt _ (by decide)) (Nat.mod_lt _ (by decide)) a4
    have b3 := digitChar_inj _ _ (Nat.mod_lt _ (by decide)) (Nat.mod_lt _ (by decide)) a3
    have b2 := digitChar_inj _ _ (Nat.mod_lt _ (by decide)) (Nat.mod_lt _ (by decide)) a2
    have b1 := digitChar_inj _ _ (Nat.mod_lt _ (by decide)) (Nat.mod_lt _ (by decide)) a1
    have b0 := digitChar_inj _ _ (Nat.mod_lt _ (by decide)) (Nat.mod_lt _ (by decide)) a0
    omega
  · intro h
    rw [h]

/-- C12.  Disk uuid from the volume serial number: for every device value and
every `uuid_size` of at least 9, `devuuid` returns 0 and stores exactly the 8
lower-case hexadecimal digits, padded with zeros, of `device mod 2^32`; two
devices get the same uuid if and only if their low 32 bits are equal. -/
theorem devuuid_volume_serial (device uuid_size : Nat) (hsize : 9 ≤ uuid_size) :
    (devuuid device uuid_size).1 = 0
    ∧ (devuuid device uuid_size).2 =
        [Nat.digitChar (device % 2 ^ 32 / 268435456 % 16),
         Nat.digitChar (device % 2 ^ 32 / 16777216 % 16),
         Nat.digitChar (device % 2 ^ 32 / 1048576 % 16),
         Nat.digitChar (device % 2 ^ 32 / 65536 % 16),
         Nat.digitChar (device % 2 ^ 32 / 4096 % 16),
         Nat.digitChar (device % 2 ^ 32 / 256 % 16),
         Nat.digitChar (device % 2 ^ 32 / 16 % 16),
         Nat.digitChar (device % 2 ^ 32 % 16)]
    ∧ (devuuid device uuid_size).2.length = 8
    ∧ (∀ c ∈ (devuuid device uuid_size).2, is_lower_hex c = true)
    ∧ (∀ device2 size2 : Nat, 9 ≤ size2 →
        ((devuuid device uuid_size).2 = (devuuid device2 size2).2
          ↔ device % 2 ^ 32 = device2 % 2 ^ 32)) := by
  have hs := devuuid_string device uuid_size hsize
  refine ⟨rfl, hs, by rw [hs]; rfl, ?_, fun d2 s2 h2 => devuuid_same_iff _ _ _ _ hsize h2⟩
  intro c hc
  rw [hs] at hc
  simp only [List.mem_cons, List.mem_singleton, List.not_mem_nil, or_false] at hc
  rcases hc with h | h | h | h | h | h | h | h <;> rw [h] <;>
    exact digitChar_hex _ (Nat.mod_lt _ (by decide))

/-- Witness of C12: the device 0xFFFFFFFF0000001F gets the uuid `0000001f`. -/
theorem devuuid_volume_serial_witness :
    (devuuid 18446744069414584351 9).1 = 0
    ∧ (devuuid 18446744069414584351 9).2 = ['0', '0', '0', '0', '0', '0', '1', 'f'] := by
  have h := devuuid_volume_serial 18446744069414584351 9 (by decide)
  refine ⟨h.1, ?_⟩
  rw [h.2.1]
  decide

/-! ## Regular files -/

/-- C13.  Which entries count as regular files: for every attribute word and
reparse tag, `windows_info2stat` sets `st_mode = S_IFREG` if and only if none
of `FILE_ATTRIBUTE_DEVICE`, `FILE_ATTRIBUTE_OFFLINE`, `FILE_ATTRIBUTE_TEMPORARY`
is set, `FILE_ATTRIBUTE_DIRECTORY` is not set, and either
`FILE_ATTRIBUTE_REPARSE_POINT` is not set or the reparse tag is
`IO_REPARSE_TAG_DEDUP`. -/
theorem info2stat_regular (info : BY_HANDLE_FILE_INFORMATION) (tag : FILE_ATTRIBUTE_TAG_INFO) :
    (windows_info2stat info tag).st_mode = Mode.S_IFREG ↔
      (info.dwFileAttributes &&& FILE_ATTRIBUTE_DEVICE = 0
        ∧ info.dwFileAttributes &&& FILE_ATTRIBUTE_OFFLINE = 0
        ∧ info.dwFileAttributes &&& FILE_ATTRIBUTE_TEMPORARY = 0
        ∧ info.dwFileAttributes &&& FILE_ATTRIBUTE_DIRECTORY = 0
        ∧ (info.dwFileAttributes &&& FILE_ATTRIBUTE_REPARSE_POINT = 0
            ∨ tag.ReparseTag = IO_REPARSE_TAG_DEDUP)) := by
  simp only [windows_info2stat]
  split_ifs <;> simp_all

/-! ## Retry of positioned reads and writes -/

theorem pread_retry_attempts {σ : Type} (os : Win32 σ) (h size : Nat) (offset : Int) (kf : σ) :
    ∀ (rs : List (Except Nat Nat)) (k : σ) (p : Proc) (fuel : Nat),
      Attempts os h offset (fun s => os.ReadFile s h (size % 2 ^ 32)) k rs kf →
      rs.length ≤ fuel →
      ∃ r, rs.getLast? = some r ∧ r ≠ Except.error ERROR_NO_SYSTEM_RESOURCES ∧
        windows_pread_retry os h size offset fuel k p =
          some ((transfer_result r
                  { p with stderr := p.stderr ++ List.replicate (rs.length - 1) pread_retrying }).1,
                kf,
                (transfer_result r
                  { p with stderr := p.stderr ++ List.replicate (rs.length - 1) pread_retrying }).2)
  | [], _, _, _, ha, _ => False.elim ha
  | [r], k, p, fuel, ha, hf => by
    obtain ⟨hne, k1, pos, hsp, hrd⟩ := ha
    obtain ⟨f, rfl⟩ : ∃ f, fuel = f + 1 := ⟨fuel - 1, by simp at hf; omega⟩
    refine ⟨r, rfl, hne, ?_⟩
    simp only at hrd
    cases r with
    | ok count =>
      simp only [windows_pread_retry, hsp, hrd, transfer_result, List.length_singleton,
        Nat.sub_self, List.replicate_zero, List.append_nil]
    | error err =>
      have he : err ≠ ERROR_NO_SYSTEM_RESOURCES := fun e => hne (by rw [e])
      simp only [windows_pread_retry, hsp, hrd, transfer_result, List.length_singleton,
        Nat.sub_self, List.replicate_zero, List.append_nil, if_neg he]
  | r :: r2 :: rs, k, p, fuel, ha, hf => by
    obtain ⟨hr, k1, pos, k2, hsp, hrd, hrest⟩ := ha
    obtain ⟨f, rfl⟩ : ∃ f, fuel = f + 1 := ⟨fuel - 1, by simp at hf; omega⟩
    have hf2 : (r2 :: rs).length ≤ f := by simp at hf ⊢; omega
    obtain ⟨r3, hl, hne, heq⟩ := pread_retry_attempts os h size offset kf (r2 :: rs)
      (os.Sleep k2 50)
      { p with stderr := p.stderr ++ [pread_retrying] }
      f hrest hf2
    refine ⟨r3, by simpa using hl, hne, ?_⟩
    subst hr
    simp only at hrd
    simp only [windows_pread_retry, hsp, hrd, if_true]
    rw [heq]
    simp [List.replicate_succ]

theorem pwrite_retry_attempts {σ : Type} (os : Win32 σ) (h : Nat) (buffer : List Nat) (size : Nat) (offset : Int) (kf : σ) :
    ∀ (rs : List (Except Nat Nat)) (k : σ) (p : Proc) (fuel : Nat),
      Attempts os h offset (fun s => os.WriteFile s h buffer (size % 2 ^ 32)) k rs kf →
      rs.length ≤ fuel →
      ∃ r, rs.getLast? = some r ∧ r ≠ Except.error ERROR_NO_SYSTEM_RESOURCES ∧
        windows_pwrite_retry os h buffer size offset fuel k p =
          some ((transfer_result r
                  { p with stderr := p.stderr ++ List.replicate (rs.length - 1) pwrite_retrying }).1,
                kf,
                (transfer_result r
                  { p with stderr := p.stderr ++ List.replicate (rs.length - 1) pwrite_retrying }).2)
  | [], _, _, _, ha, _ => False.elim ha
  | [r], k, p, fuel, ha, hf => by
    obtain ⟨hne, k1, pos, hsp, hrd⟩ := ha
    obtain ⟨f, rfl⟩ : ∃ f, fuel = f + 1 := ⟨fuel - 1, by simp at hf; omega⟩
    refine ⟨r, rfl, hne, ?_⟩
    simp only at hrd
    cases r with
    | ok count =>
      simp only [windows_pwrite_retry, hsp, hrd, transfer_result, List.length_singleton,
        Nat.sub_self, List.replicate_zero, List.append_nil]
    | error err =>
      have he : err ≠ ERROR_NO_SYSTEM_RESOURCES := fun e => hne (by rw [e])
      simp only [windows_pwrite_retry, hsp, hrd, transfer_result, List.length_singleton,
        Nat.sub_self, List.replicate_zero, List.append_nil, if_neg he]
  | r :: r2 :: rs, k, p, fuel, ha, hf => by
    obtain ⟨hr, k1, pos, k2, hsp, hrd, hrest⟩ := ha
    obtain ⟨f, rfl⟩ : ∃ f, fuel = f + 1 := ⟨fuel - 1, by simp at hf; omega⟩
    have hf2 : (r2 :: rs).length ≤ f := by simp at hf ⊢; omega
    obtain ⟨r3, hl, hne, heq⟩ := pwrite_retry_attempts os h buffer size offset kf (r2 :: rs)
      (os.Sleep k2 50)
      { p with stderr := p.stderr ++ [pwrite_retrying] }
      f hrest hf2
    refine ⟨r3, by simpa using hl, hne, ?_⟩
    subst hr
    simp only at hrd
    simp only [windows_pwrite_retry, hsp, hrd, if_true]
    rw [heq]
    simp [List.replicate_succ]

/-- C14.  Retry on `ERROR_NO_SYSTEM_RESOURCES`: with a valid handle, when the
operating system answers the attempts of `ReadFile` (resp. `WriteFile`) with
the outcomes r1, ..., rn, of which all but the last are
`ERROR_NO_SYSTEM_RESOURCES`, each attempt being made after the file pointer
has been set to the requested offset, then `windows_pread` (resp.
`windows_pwrite`), given room for n attempts, returns the outcome of rn: its
byte count, or -1 with the errno mapped from its error.  Nothing of the
failures with `ERROR_NO_SYSTEM_RESOURCES` is returned: they only leave one
line each on `stderr`. -/
theorem pread_pwrite_retry {σ : Type} (os : Win32 σ) (k kf : σ) (p : Proc) (fd : Int)
    (h : Nat) (buffer : List Nat) (size : Nat) (offset : Int) (rs : List (Except Nat Nat))
    (fuel : Nat) (hfd : fd ≠ -1) (hh : os.get_osfhandle k fd = some h)
    (hfuel : rs.length ≤ fuel) :
    (Attempts os h offset (fun s => os.ReadFile s h (size % 2 ^ 32)) k rs kf →
      ∃ r, rs.getLast? = some r ∧ r ≠ Except.error ERROR_NO_SYSTEM_RESOURCES ∧
        windows_pread os fuel k p fd size offset =
          some ((transfer_result r
                  { p with stderr := p.stderr ++ List.replicate (rs.length - 1) pread_retrying }).1,
                kf,
                (transfer_result r
                  { p with stderr := p.stderr ++ List.replicate (rs.length - 1) pread_retrying }).2))
    ∧ (Attempts os h offset (fun s => os.WriteFile s h buffer (size % 2 ^ 32)) k rs kf →
      ∃ r, rs.getLast? = some r ∧ r ≠ Except.error ERROR_NO_SYSTEM_RESOURCES ∧
        windows_pwrite os fuel k p fd buffer size offset =
          some ((transfer_result r
                  { p with stderr := p.stderr ++ List.replicate (rs.length - 1) pwrite_retrying }).1,
                kf,
                (transfer_result r
                  { p with stderr := p.stderr ++ List.replicate (rs.length - 1) pwrite_retrying }).2)) := by
  constructor
  · intro ha
    unfold windows_pread
    rw [if_neg hfd, hh]
    exact pread_retry_attempts os h size offset kf rs k p fuel ha hfuel
  · intro ha
    unfold windows_pwrite
    rw [if_neg hfd, hh]
    exact pwrite_retry_attempts os h buffer size offset kf rs k p fuel ha hfuel

/-- Witness of C14: the scripted operating system fails twice with
`ERROR_NO_SYSTEM_RESOURCES` and then reads 512 bytes: `windows_pread` returns
512, after three attempts, each one made after setting the file pointer. -/
theorem pread_pwrite_retry_witness :
    windows_pread sample_os 3 ⟨sample_outcomes, [], []⟩ ⟨0, []⟩ 3 512 4096 =
      some (512,
        ⟨[], [], ["SetFilePointerEx", "ReadFile", "Sleep", "SetFilePointerEx", "ReadFile",
          "Sleep", "SetFilePointerEx", "ReadFile"]⟩,
        ⟨0, [pread_retrying, pread_retrying]⟩) := by
  have ha : Attempts sample_os 7 4096 (fun s => sample_os.ReadFile s 7 (512 % 2 ^ 32))
      ⟨sample_outcomes, [], []⟩ sample_outcomes
      ⟨[], [], ["SetFilePointerEx", "ReadFile", "Sleep", "SetFilePointerEx", "ReadFile",
          "Sleep", "SetFilePointerEx", "ReadFile"]⟩ :=
    ⟨rfl, _, _, _, rfl, rfl, rfl, _, _, _, rfl, rfl, (fun e => Except.noConfusion e), _, _, rfl, rfl⟩
  obtain ⟨r, hl, _, heq⟩ := (pread_pwrite_retry sample_os ⟨sample_outcomes, [], []⟩ _ ⟨0, []⟩ 3 7
    [] 512 4096 sample_outcomes 3 (by decide) rfl (by decide)).1 ha
  have hr : r = Except.ok 512 := by
    have : sample_outcomes.getLast? = some (Except.ok 512) := rfl
    rw [this] at hl
    exact (Option.some.inj hl).symm
  subst hr
  exact heq

end Snapraid
